import Mathlib

/-!
# touchpad-tablet: the event interpreter of `src/main.c`

A shallow embedding of `handle_event` and of `main` (option handling, device
probing, threshold validation, read loop), followed by the properties proved
about them.

Conventions of the embedding

* A C `int` is an `Int`; the product of the coordinate scaling is reduced to
  32 bits two's complement by `wrap_int`, and the quotient truncates toward
  zero (`Int.tdiv`).  C leaves signed overflow and division by zero undefined:
  here a product that does not fit wraps, while a division by zero and the
  division of `INT_MIN` by -1 trap, so that the process is killed by `SIGFPE`
  (`Outcome.killed`) and nothing after the division runs.
* The three `static int` variables of `handle_event` are the record
  `AxisState`, passed in and returned.
* The X server is seen through the calls made to it (`XCall`, in program
  order) and through the answer it gives to `XGetWindowAttributes`
  (`none` when that call returns 0).
* `exit(1)` is the outcome `Outcome.exited`; the text written to `stderr` is a
  value of `Message`.  Debug output on `stdout` is not modelled, nor is the
  opening of the display and the choice of the target window: the window is
  seen only through its answers to the size query.
* Definitions whose comment refers to a section of the specification
  (`ContactStatus`, `contact_status`, `ScalingMode`, `reference_map`,
  `last_reported`, `within_extent`) state the specification side of a
  property; all others are read off the source.
-/

set_option linter.unusedVariables false

namespace TouchpadTablet

/-! ## Machine integers -/

/-- Smallest value of a 32-bit `int`. -/
def INT_MIN : Int := -2147483648

/-- Largest value of a 32-bit `int`. -/
def INT_MAX : Int := 2147483647

/-- Representable as a 32-bit `int`. -/
def in_int (n : Int) : Prop := INT_MIN ≤ n ∧ n ≤ INT_MAX

instance (n : Int) : Decidable (in_int n) := by
  unfold in_int; infer_instance

/-- Reduction of an integer to 32 bits two's complement. -/
def wrap_int (n : Int) : Int := (n + 2147483648) % 4294967296 - 2147483648

/-- The C expression `a * b` on `int`. -/
def int_mul (a b : Int) : Int := wrap_int (a * b)

/-- The C expression `a / b` on `int`: the quotient truncated toward zero, or
`none` where the division traps and the process is killed by `SIGFPE`, that is
for a zero divisor and for `INT_MIN / -1`, whose quotient is not an `int`. For
operands that are `int`s every other quotient is one. -/
def int_div (a b : Int) : Option Int :=
  if b = 0 then none
  else if a = INT_MIN ∧ b = -1 then none
  else some (Int.tdiv a b)

/-! ## Constants of `linux/input-event-codes.h` and of the source -/

def EV_SYN : Int := 0
def EV_ABS : Int := 3
def SYN_REPORT : Int := 0
def SYN_CONFIG : Int := 1
def ABS_X : Int := 0
def ABS_Y : Int := 1
def ABS_PRESSURE : Int := 24

/-- Values of `enum scaling_mode`. -/
def FULL : Int := 0
def ASPECT_FILL_X : Int := 1
def ASPECT_FILL_Y : Int := 2
def NONE : Int := 3

/-- Return values of `libevdev_next_event` and the `errno` value the loop tests. -/
def LIBEVDEV_READ_STATUS_SUCCESS : Int := 0
def LIBEVDEV_READ_STATUS_SYNC : Int := 1
def EAGAIN : Int := 11

/-- Number of the signal raised by a trapping integer division. -/
def SIGFPE : Int := 8

/-! ## Data -/

/-- The fields of `struct input_event` that the program reads. -/
structure input_event where
  type : Int
  code : Int
  value : Int
  deriving DecidableEq, Repr

/-- The fields of `struct input_absinfo` that the program reads. -/
structure input_absinfo where
  minimum : Int
  maximum : Int
  deriving DecidableEq, Repr

/-- The fields of `XWindowAttributes` that the program reads. -/
structure XWindowAttributes where
  width : Int
  height : Int
  deriving DecidableEq, Repr

/-- The `static int abs_x, abs_y, abs_pressure` of `handle_event`. -/
structure AxisState where
  abs_x : Int
  abs_y : Int
  abs_pressure : Int
  deriving DecidableEq, Repr

/-- Zero-initialised statics at process start. -/
def AxisState.initial : AxisState := ⟨0, 0, 0⟩

/-- A call made to the X server. `XWarpPointer x y` stands for
`XWarpPointer(dpy, None, target_window, 0, 0, 0, 0, x, y)` and
`XTestFakeButtonEvent b p` for `XTestFakeButtonEvent(dpy, b, p, 0)`. -/
inductive XCall where
  | XGetWindowAttributes
  | XWarpPointer (x y : Int)
  | XTestFakeButtonEvent (button : Int) (is_press : Bool)
  | XFlush
  deriving DecidableEq, Repr

/-- What the program writes to `stderr`. -/
inductive Message where
  /-- Text "ERROR: Failed to get window attributes". -/
  | window_attributes_failed
  /-- Text "ERROR: Invalid scaling mode: %d". -/
  | invalid_scaling_mode (mode : Int)
  /-- Text "ERROR: Failed to open device: %s". -/
  | open_failed
  /-- Text "ERROR: Failed to init libevdev: %s". -/
  | init_failed
  /-- Text "ERROR: This device does not support absolute coordinates and pressure". -/
  | no_abs_support
  /-- Text "ERROR: Threshold(s) out of range". -/
  | thresholds_out_of_range
  /-- Text "WARNING: click threshold less than release threshold". -/
  | click_below_release
  deriving DecidableEq, Repr

/-- How one call of `handle_event` ends: `return 0` with the new statics,
`exit(status)` after a message, or the death of the process by a signal; each
with the X calls made so far. -/
inductive Outcome where
  | returned (st : AxisState) (calls : List XCall)
  | exited (status : Int) (msg : Message) (calls : List XCall)
  | killed (signal : Int) (calls : List XCall)
  deriving DecidableEq, Repr

/-- The X calls made during one call of `handle_event`. -/
def Outcome.calls : Outcome → List XCall
  | .returned _ cs => cs
  | .exited _ _ cs => cs
  | .killed _ cs => cs

/-- What the `switch (scaling_mode)` comes to: a pointer position, the
`default` branch, or a division that traps. -/
inductive Scaled where
  | position (x y : Int)
  | invalid_mode
  | trapped
  deriving DecidableEq, Repr

/-- The two coordinates of a `case`, each the result of a division: a position
when both divisions are defined, a trap otherwise. -/
def Scaled.of_quotients : Option Int → Option Int → Scaled
  | some x, some y => .position x y
  | _, _ => .trapped

/-! ## `handle_event` -/

/-- The `switch (scaling_mode)` of lines 53-74. -/
def scaled_position (scaling_mode : Int) (st : AxisState) (target_attr : XWindowAttributes)
    (x_absinfo y_absinfo : input_absinfo) : Scaled :=
  if scaling_mode = FULL then
    Scaled.of_quotients
      (int_div (int_mul st.abs_x target_attr.width) x_absinfo.maximum)
      (int_div (int_mul st.abs_y target_attr.height) y_absinfo.maximum)
  else if scaling_mode = ASPECT_FILL_X then
    Scaled.of_quotients
      (int_div (int_mul st.abs_x target_attr.width) x_absinfo.maximum)
      (int_div (int_mul st.abs_y target_attr.width) x_absinfo.maximum)
  else if scaling_mode = ASPECT_FILL_Y then
    Scaled.of_quotients
      (int_div (int_mul st.abs_x target_attr.height) y_absinfo.maximum)
      (int_div (int_mul st.abs_y target_attr.height) y_absinfo.maximum)
  else if scaling_mode = NONE then
    .position st.abs_x st.abs_y
  else
    .invalid_mode

/-- The `switch (ev->code)` of lines 88-99. -/
def store_axis (ev : input_event) (st : AxisState) : AxisState :=
  if ev.code = ABS_X then
    if ev.value ≠ 0 then { st with abs_x := ev.value } else st
  else if ev.code = ABS_Y then
    { st with abs_y := ev.value }
  else if ev.code = ABS_PRESSURE then
    { st with abs_pressure := ev.value }
  else
    st

/-- The two button tests of lines 79-82. -/
def button_calls (st : AxisState) (click_threshold release_threshold : Int) : List XCall :=
  if st.abs_pressure ≥ click_threshold then
    [XCall.XTestFakeButtonEvent 1 true]
  else if st.abs_pressure ≤ release_threshold then
    [XCall.XTestFakeButtonEvent 1 false]
  else
    []

/-- The function `handle_event` of `src/main.c`. `target` is the answer of
`XGetWindowAttributes` for the target window, should the function ask. -/
def handle_event (target : Option XWindowAttributes) (ev : input_event)
    (x_absinfo y_absinfo pressure_absinfo : input_absinfo)
    (click_threshold release_threshold movement_threshold : Int)
    (scaling_mode : Int) (st : AxisState) : Outcome :=
  if ev.type = EV_SYN then
    if st.abs_pressure ≥ movement_threshold then
      match target with
      | none =>
        .exited 1 .window_attributes_failed [XCall.XGetWindowAttributes]
      | some target_attr =>
        match scaled_position scaling_mode st target_attr x_absinfo y_absinfo with
        | .invalid_mode =>
          .exited 1 (.invalid_scaling_mode scaling_mode) [XCall.XGetWindowAttributes]
        | .trapped =>
          .killed SIGFPE [XCall.XGetWindowAttributes]
        | .position x y =>
          .returned (store_axis ev st)
            ([XCall.XGetWindowAttributes, XCall.XWarpPointer x y]
              ++ button_calls st click_threshold release_threshold ++ [XCall.XFlush])
    else
      .returned (store_axis ev st)
        (button_calls st click_threshold release_threshold ++ [XCall.XFlush])
  else if ev.type ≠ EV_ABS then
    .returned st []
  else
    .returned (store_axis ev st) []

/-! ## `main` -/

/-- One result of `getopt_long`: a long option that sets a flag variable
(return value 0), an option with its argument already converted by `atoi`,
`-h`, or an unrecognised option. -/
inductive Opt where
  | debug
  | scale_full
  | scale_aspect_fill_x
  | scale_aspect_fill_y
  | scale_none
  | c (optarg : Int)
  | r (optarg : Int)
  | m (optarg : Int)
  | w (optarg : Int)
  | h
  | unrecognised
  deriving DecidableEq, Repr

/-- The variables that the option loop of `main` sets. -/
structure Settings where
  debug_output : Int
  scaling_mode : Int
  click_threshold : Int
  release_threshold : Int
  movement_threshold : Int
  target_window : Int
  deriving DecidableEq, Repr

/-- Initial values of lines 28 and 104-108. -/
def Settings.default : Settings :=
  { debug_output := 0, scaling_mode := ASPECT_FILL_X, click_threshold := 50,
    release_threshold := 20, movement_threshold := 0, target_window := 0 }

/-- The option loop of lines 110-178: the settings, or the value `main`
returns at once (`-h` gives 0, an unrecognised option gives 1). -/
def parse_options : Settings → List Opt → Except Int Settings
  | s, [] => .ok s
  | s, .debug :: rest => parse_options { s with debug_output := 1 } rest
  | s, .scale_full :: rest => parse_options { s with scaling_mode := FULL } rest
  | s, .scale_aspect_fill_x :: rest =>
    parse_options { s with scaling_mode := ASPECT_FILL_X } rest
  | s, .scale_aspect_fill_y :: rest =>
    parse_options { s with scaling_mode := ASPECT_FILL_Y } rest
  | s, .scale_none :: rest => parse_options { s with scaling_mode := NONE } rest
  | s, .c n :: rest => parse_options { s with click_threshold := n } rest
  | s, .r n :: rest => parse_options { s with release_threshold := n } rest
  | s, .m n :: rest => parse_options { s with movement_threshold := n } rest
  | s, .w n :: rest => parse_options { s with target_window := n } rest
  | _, .h :: _ => .error 0
  | _, .unrecognised :: _ => .error 1

/-- What the device collaborator answers during start-up. -/
structure Device where
  fd : Int
  init_rc : Int
  has_abs_x : Bool
  has_abs_y : Bool
  has_abs_pressure : Bool
  x : input_absinfo
  y : input_absinfo
  pressure : input_absinfo
  deriving DecidableEq, Repr

/-- One iteration of the read loop as the outside world determines it: the
return value of `libevdev_next_event`, the event it delivers, and the answer
`XGetWindowAttributes` would give during this iteration. -/
structure Read where
  rc : Int
  ev : input_event
  target : Option XWindowAttributes
  deriving DecidableEq, Repr

/-- An observed execution of `main`. `status` is the exit status, or 128 plus
the signal number when the process is killed by a signal. -/
structure Run where
  stderr : List Message
  status : Int
  events_read : Nat
  state : AxisState
  calls : List XCall
  deriving DecidableEq, Repr

/-- The `do ... while` loop of lines 246-253, over the reads still to come.
The loop is left when a read returns anything but 0, 1 or `-EAGAIN`; a list
that runs out stands for such a read. Falling out of the loop ends `main`
with status 0. -/
def event_loop (x y pressure : input_absinfo) (s : Settings) :
    AxisState → List Read → Run
  | st, [] => { stderr := [], status := 0, events_read := 0, state := st, calls := [] }
  | st, rd :: rest =>
    if rd.rc = LIBEVDEV_READ_STATUS_SUCCESS then
      match handle_event rd.target rd.ev x y pressure s.click_threshold
          s.release_threshold s.movement_threshold s.scaling_mode st with
      | .exited status msg cs =>
        { stderr := [msg], status := status, events_read := 1, state := st, calls := cs }
      | .killed signal cs =>
        { stderr := [], status := 128 + signal, events_read := 1, state := st, calls := cs }
      | .returned st1 cs =>
        let run := event_loop x y pressure s st1 rest
        { run with events_read := run.events_read + 1, calls := cs ++ run.calls }
    else if rd.rc = 1 ∨ rd.rc = -EAGAIN then
      let run := event_loop x y pressure s st rest
      { run with events_read := run.events_read + 1 }
    else
      { stderr := [], status := 0, events_read := 1, state := st, calls := [] }

/-- Lines 223-253 of `main`: the threshold validation, the warning, and the
read loop. -/
def main_thresholds (s : Settings) (x y pressure : input_absinfo) (reads : List Read) : Run :=
  if s.click_threshold < pressure.minimum ∨ s.click_threshold > pressure.maximum ∨
      s.release_threshold < pressure.minimum ∨ s.release_threshold > pressure.maximum then
    { stderr := [.thresholds_out_of_range], status := 1, events_read := 0,
      state := AxisState.initial, calls := [] }
  else
    let warning : List Message :=
      if s.click_threshold < s.release_threshold then [.click_below_release] else []
    let run := event_loop x y pressure s AxisState.initial reads
    { run with stderr := warning ++ run.stderr }

/-- The function `main` of `src/main.c`. -/
def main (opts : List Opt) (dev : Device) (reads : List Read) : Run :=
  let stopped (msgs : List Message) (status : Int) : Run :=
    { stderr := msgs, status := status, events_read := 0,
      state := AxisState.initial, calls := [] }
  match parse_options Settings.default opts with
  | .error status => stopped [] status
  | .ok s =>
    if dev.fd < 0 then stopped [.open_failed] 1
    else if dev.init_rc < 0 then stopped [.init_failed] 1
    else if !dev.has_abs_x || !dev.has_abs_y || !dev.has_abs_pressure then
      stopped [.no_abs_support] 1
    else main_thresholds s dev.x dev.y dev.pressure reads

/-! ## Observations on call sequences -/

/-- Pointer-move commands among the calls. -/
def warp_commands : List XCall → List XCall
  | [] => []
  | .XWarpPointer x y :: cs => .XWarpPointer x y :: warp_commands cs
  | _ :: cs => warp_commands cs

/-- Button commands among the calls. -/
def button_commands : List XCall → List XCall
  | [] => []
  | .XTestFakeButtonEvent b p :: cs => .XTestFakeButtonEvent b p :: button_commands cs
  | _ :: cs => button_commands cs

/-- Commands sent to the display (pointer moves and button events), in order:
the calls without the size queries and the flushes. -/
def commands : List XCall → List XCall
  | [] => []
  | .XWarpPointer x y :: cs => .XWarpPointer x y :: commands cs
  | .XTestFakeButtonEvent b p :: cs => .XTestFakeButtonEvent b p :: commands cs
  | _ :: cs => commands cs

/-- Contact status of the data model (spec section 3). -/
inductive ContactStatus where
  | Released
  | Pressed
  deriving DecidableEq, Repr

/-- Contact status derived from the emitted commands (spec section 4.3): the
last button command decides, and without one the prior status persists. -/
def contact_status : ContactStatus → List XCall → ContactStatus
  | s, [] => s
  | _, .XTestFakeButtonEvent _ true :: cs => contact_status .Pressed cs
  | _, .XTestFakeButtonEvent _ false :: cs => contact_status .Released cs
  | s, _ :: cs => contact_status s cs

/-- One of the four values of `enum scaling_mode`. -/
def valid_mode (scaling_mode : Int) : Prop :=
  scaling_mode = FULL ∨ scaling_mode = ASPECT_FILL_X ∨
    scaling_mode = ASPECT_FILL_Y ∨ scaling_mode = NONE

instance (k : Int) : Decidable (valid_mode k) := by
  unfold valid_mode; infer_instance

/-- The division `a / b` on `int` is defined: the divisor is not zero and the
quotient is not that of `INT_MIN` by -1. -/
def div_defined (a b : Int) : Prop := b ≠ 0 ∧ ¬ (a = INT_MIN ∧ b = -1)

instance (a b : Int) : Decidable (div_defined a b) := by
  unfold div_defined; infer_instance

/-- Every division that the `case` of the scaling mode performs (lines 55-64)
is defined; mode `NONE` divides nothing. -/
def scaling_defined (scaling_mode : Int) (st : AxisState) (target_attr : XWindowAttributes)
    (x_absinfo y_absinfo : input_absinfo) : Prop :=
  (scaling_mode = FULL →
    div_defined (int_mul st.abs_x target_attr.width) x_absinfo.maximum ∧
    div_defined (int_mul st.abs_y target_attr.height) y_absinfo.maximum) ∧
  (scaling_mode = ASPECT_FILL_X →
    div_defined (int_mul st.abs_x target_attr.width) x_absinfo.maximum ∧
    div_defined (int_mul st.abs_y target_attr.width) x_absinfo.maximum) ∧
  (scaling_mode = ASPECT_FILL_Y →
    div_defined (int_mul st.abs_x target_attr.height) y_absinfo.maximum ∧
    div_defined (int_mul st.abs_y target_attr.height) y_absinfo.maximum)

instance (scaling_mode : Int) (st : AxisState) (target_attr : XWindowAttributes)
    (x_absinfo y_absinfo : input_absinfo) :
    Decidable (scaling_defined scaling_mode st target_attr x_absinfo y_absinfo) := by
  unfold scaling_defined; infer_instance

/-- A sync barrier as the kernel sends it: `EV_SYN`, `SYN_REPORT`, value 0. -/
def sync_report : input_event := ⟨EV_SYN, SYN_REPORT, 0⟩

/-- An axis report: `EV_ABS` with the axis code and the value. -/
def abs_report (code value : Int) : input_event := ⟨EV_ABS, code, value⟩

/-- A successful read of `ev`, during which the target window answers `target`. -/
def read_ok (ev : input_event) (target : Option XWindowAttributes) : Read :=
  ⟨LIBEVDEV_READ_STATUS_SUCCESS, ev, target⟩

/-- Scaling modes of the data model (spec section 3). -/
inductive ScalingMode where
  | Full
  | AspectFillX
  | AspectFillY
  | None
  deriving DecidableEq, Repr

/-- The value of `enum scaling_mode` that stands for a mode. -/
def ScalingMode.toInt : ScalingMode → Int
  | .Full => FULL
  | .AspectFillX => ASPECT_FILL_X
  | .AspectFillY => ASPECT_FILL_Y
  | .None => NONE

/-- The reference mapping of spec section 4.2, over the integers and with
truncating division. -/
def reference_map (mode : ScalingMode) (x y xMax yMax width height : Int) : Int × Int :=
  match mode with
  | .Full => (Int.tdiv (x * width) xMax, Int.tdiv (y * height) yMax)
  | .AspectFillX => (Int.tdiv (x * width) xMax, Int.tdiv (y * width) xMax)
  | .AspectFillY => (Int.tdiv (x * height) yMax, Int.tdiv (y * height) yMax)
  | .None => (x, y)

/-- The product `a * b` and its truncated quotient by `m` are both
representable as 32-bit `int`. -/
def fits_int (a b m : Int) : Prop := in_int (a * b) ∧ in_int (Int.tdiv (a * b) m)

instance (a b m : Int) : Decidable (fits_int a b m) := by
  unfold fits_int; infer_instance

/-- Every product and quotient of the reference mapping of a mode is
representable as 32-bit `int`. -/
def reference_fits (mode : ScalingMode) (x y xMax yMax width height : Int) : Prop :=
  match mode with
  | .Full => fits_int x width xMax ∧ fits_int y height yMax
  | .AspectFillX => fits_int x width xMax ∧ fits_int y width xMax
  | .AspectFillY => fits_int x height yMax ∧ fits_int y height yMax
  | .None => True

instance (mode : ScalingMode) (x y xMax yMax width height : Int) :
    Decidable (reference_fits mode x y xMax yMax width height) := by
  cases mode <;> unfold reference_fits <;> infer_instance

/-- Value of the most recent report of an axis (spec section 8): the value of
the last event of the list with the given code, among those whose value is
non-zero when `skip_zero` is set; `none_yet` when there is none. -/
def last_reported (code : Int) (skip_zero : Bool) (none_yet : Int)
    (evs : List input_event) : Int :=
  (((evs.filter (fun e => decide (e.code = code) && (!skip_zero || decide (e.value ≠ 0)))).getLast?).map
    (fun e => e.value)).getD none_yet

/-- The reads that deliver, one after the other and each successfully, the
events of a list; the target window answers `target` throughout. -/
def reads_of (target : Option XWindowAttributes) (evs : List input_event) : List Read :=
  evs.map (fun ev => read_ok ev target)

/-- The events of a pressure sequence: each pressure report followed by a sync
barrier. -/
def pressure_frames : List Int → List input_event
  | [] => []
  | p :: ps => abs_report ABS_PRESSURE p :: sync_report :: pressure_frames ps

/-- Contact status, starting from `Released`, after the read loop has processed
the frames of a pressure sequence from state `st`, the target window answering
`a` throughout. -/
def status_after_frames (x y pressure : input_absinfo) (s : Settings) (st : AxisState)
    (a : XWindowAttributes) (ps : List Int) : ContactStatus :=
  contact_status .Released
    (event_loop x y pressure s st (reads_of (some a) (pressure_frames ps))).calls

/-- A threshold lies within the extent of an axis (spec section 4.3):
minimum <= t <= maximum. -/
def within_extent (extent : input_absinfo) (t : Int) : Prop :=
  extent.minimum ≤ t ∧ t ≤ extent.maximum

instance (extent : input_absinfo) (t : Int) : Decidable (within_extent extent t) := by
  unfold within_extent; infer_instance

/-! ## Lemmas on the embedding -/

theorem wrap_int_of_in_int {n : Int} (h : in_int n) : wrap_int n = n := by
  unfold in_int INT_MIN INT_MAX at h
  unfold wrap_int
  omega

theorem int_div_of_defined {a b : Int} (h : div_defined a b) :
    int_div a b = some (Int.tdiv a b) := by
  unfold int_div
  rw [if_neg h.1, if_neg h.2]

theorem int_div_of_not_defined {a b : Int} (h : ¬ div_defined a b) :
    int_div a b = none := by
  unfold div_defined at h
  unfold int_div
  by_cases hb : b = 0
  · rw [if_pos hb]
  · rw [if_neg hb, if_pos (by tauto)]

/-- A product and quotient that fit, with a non-zero divisor, make the division
defined. -/
theorem div_defined_of_fits {a b m : Int} (h : fits_int a b m) (hm : m ≠ 0) :
    div_defined (int_mul a b) m := by
  refine ⟨hm, ?_⟩
  rintro ⟨h1, h2⟩
  unfold int_mul at h1
  rw [wrap_int_of_in_int h.1] at h1
  have h3 := h.2
  rw [h1, h2] at h3
  exact absurd h3 (by decide)

theorem int_div_int_mul_of_fits {a b m : Int} (h : fits_int a b m) (hm : m ≠ 0) :
    int_div (int_mul a b) m = some (Int.tdiv (a * b) m) := by
  rw [int_div_of_defined (div_defined_of_fits h hm)]
  unfold int_mul
  rw [wrap_int_of_in_int h.1]

theorem warp_commands_append (as bs : List XCall) :
    warp_commands (as ++ bs) = warp_commands as ++ warp_commands bs := by
  induction as with
  | nil => rfl
  | cons a as ih => cases a <;> simp [warp_commands, ih]

theorem button_commands_append (as bs : List XCall) :
    button_commands (as ++ bs) = button_commands as ++ button_commands bs := by
  induction as with
  | nil => rfl
  | cons a as ih => cases a <;> simp [button_commands, ih]

theorem commands_append (as bs : List XCall) :
    commands (as ++ bs) = commands as ++ commands bs := by
  induction as with
  | nil => rfl
  | cons a as ih => cases a <;> simp [commands, ih]

theorem contact_status_append (s : ContactStatus) (as bs : List XCall) :
    contact_status s (as ++ bs) = contact_status (contact_status s as) bs := by
  induction as generalizing s with
  | nil => rfl
  | cons a as ih =>
    cases a with
    | XTestFakeButtonEvent b p => cases p <;> simp [contact_status, ih]
    | _ => simp [contact_status, ih]

theorem warp_commands_button_calls (st : AxisState) (c r : Int) :
    warp_commands (button_calls st c r) = [] := by
  unfold button_calls
  split_ifs <;> rfl

theorem button_commands_button_calls (st : AxisState) (c r : Int) :
    button_commands (button_calls st c r) = button_calls st c r := by
  unfold button_calls
  split_ifs <;> rfl

theorem commands_button_calls (st : AxisState) (c r : Int) :
    commands (button_calls st c r) = button_calls st c r := by
  unfold button_calls
  split_ifs <;> rfl

/-- A barrier whose stored pressure is below the movement threshold returns
after the button tests and the flush, without asking for the window size. -/
theorem handle_event_sync_still (target : Option XWindowAttributes) (ev : input_event)
    (xi yi pi : input_absinfo) (c r m mode : Int) (st : AxisState)
    (hsyn : ev.type = EV_SYN) (hp : st.abs_pressure < m) :
    handle_event target ev xi yi pi c r m mode st =
      .returned (store_axis ev st) (button_calls st c r ++ [XCall.XFlush]) := by
  have h : ¬ st.abs_pressure ≥ m := by omega
  simp [handle_event, hsyn, h]

/-- A barrier whose stored pressure reaches the movement threshold, with the
window size obtained and a position computed, warps and then runs the button
tests. -/
theorem handle_event_sync_move (a : XWindowAttributes) (ev : input_event)
    (xi yi pi : input_absinfo) (c r m mode : Int) (st : AxisState) (x y : Int)
    (hsyn : ev.type = EV_SYN) (hp : m ≤ st.abs_pressure)
    (hpos : scaled_position mode st a xi yi = .position x y) :
    handle_event (some a) ev xi yi pi c r m mode st =
      .returned (store_axis ev st)
        ([XCall.XGetWindowAttributes, XCall.XWarpPointer x y] ++ button_calls st c r
          ++ [XCall.XFlush]) := by
  have h : st.abs_pressure ≥ m := hp
  simp [handle_event, hsyn, h, hpos]

/-- A barrier whose stored pressure reaches the movement threshold, with the
window size obtained and a division that traps, is the end of the process right
after the query. -/
theorem handle_event_sync_trapped (a : XWindowAttributes) (ev : input_event)
    (xi yi pi : input_absinfo) (c r m mode : Int) (st : AxisState)
    (hsyn : ev.type = EV_SYN) (hp : m ≤ st.abs_pressure)
    (hpos : scaled_position mode st a xi yi = .trapped) :
    handle_event (some a) ev xi yi pi c r m mode st =
      .killed SIGFPE [XCall.XGetWindowAttributes] := by
  have h : st.abs_pressure ≥ m := hp
  simp [handle_event, hsyn, h, hpos]

/-- With the same answer of the mode switch, two barriers that differ only in
window size and extents end alike. -/
theorem handle_event_congr (a a2 : XWindowAttributes) (ev : input_event)
    (xi yi pi xi2 yi2 : input_absinfo) (c r m mode : Int) (st : AxisState)
    (hpos : scaled_position mode st a2 xi2 yi2 = scaled_position mode st a xi yi) :
    handle_event (some a2) ev xi2 yi2 pi c r m mode st
      = handle_event (some a) ev xi yi pi c r m mode st := by
  simp only [handle_event, hpos]

/-- A barrier whose window-size query fails exits at once. -/
theorem handle_event_sync_no_window (ev : input_event)
    (xi yi pi : input_absinfo) (c r m mode : Int) (st : AxisState)
    (hsyn : ev.type = EV_SYN) (hp : m ≤ st.abs_pressure) :
    handle_event none ev xi yi pi c r m mode st =
      .exited 1 .window_attributes_failed [XCall.XGetWindowAttributes] := by
  have h : st.abs_pressure ≥ m := hp
  simp [handle_event, hsyn, h]

/-- An axis report only goes through the `switch (ev->code)`. -/
theorem handle_event_abs (target : Option XWindowAttributes) (ev : input_event)
    (xi yi pi : input_absinfo) (c r m mode : Int) (st : AxisState)
    (habs : ev.type = EV_ABS) :
    handle_event target ev xi yi pi c r m mode st = .returned (store_axis ev st) [] := by
  simp [handle_event, habs, EV_ABS, EV_SYN]

/-- A valid mode whose divisions are defined yields a position. -/
theorem scaled_position_of_valid (mode : Int) (st : AxisState) (a : XWindowAttributes)
    (xi yi : input_absinfo) (h : valid_mode mode) (hdef : scaling_defined mode st a xi yi) :
    ∃ x y, scaled_position mode st a xi yi = .position x y := by
  obtain ⟨d1, d2, d3⟩ := hdef
  unfold scaled_position
  split_ifs with h1 h2 h3 h4
  · obtain ⟨e1, e2⟩ := d1 h1
    rw [int_div_of_defined e1, int_div_of_defined e2]
    exact ⟨_, _, rfl⟩
  · obtain ⟨e1, e2⟩ := d2 h2
    rw [int_div_of_defined e1, int_div_of_defined e2]
    exact ⟨_, _, rfl⟩
  · obtain ⟨e1, e2⟩ := d3 h3
    rw [int_div_of_defined e1, int_div_of_defined e2]
    exact ⟨_, _, rfl⟩
  · exact ⟨_, _, rfl⟩
  · rcases h with h | h | h | h <;> contradiction

theorem of_quotients_trapped_left (q : Option Int) : Scaled.of_quotients none q = .trapped := by
  cases q <;> rfl

theorem of_quotients_trapped_right (q : Option Int) :
    Scaled.of_quotients q none = .trapped := by
  cases q <;> rfl

/-- A valid mode with a division that is not defined traps. -/
theorem scaled_position_of_not_defined (mode : Int) (st : AxisState) (a : XWindowAttributes)
    (xi yi : input_absinfo) (hdef : ¬ scaling_defined mode st a xi yi) :
    scaled_position mode st a xi yi = .trapped := by
  have key : ∀ (u v mu mv : Int), ¬ (div_defined u mu ∧ div_defined v mv) →
      Scaled.of_quotients (int_div u mu) (int_div v mv) = .trapped := by
    intro u v mu mv hn
    by_cases hu : div_defined u mu
    · have hv : ¬ div_defined v mv := fun hv => hn ⟨hu, hv⟩
      rw [int_div_of_not_defined hv, of_quotients_trapped_right]
    · rw [int_div_of_not_defined hu, of_quotients_trapped_left]
  unfold scaling_defined at hdef
  unfold scaled_position
  split_ifs with h1 h2 h3 h4
  · apply key
    intro hd
    apply hdef
    refine ⟨fun _ => hd, fun h => ?_, fun h => ?_⟩ <;>
      · rw [h1] at h; exact absurd h (by decide)
  · apply key
    intro hd
    apply hdef
    refine ⟨fun h => absurd h h1, fun _ => hd, fun h => ?_⟩
    rw [h2] at h; exact absurd h (by decide)
  · apply key
    intro hd
    apply hdef
    exact ⟨fun h => absurd h h1, fun h => absurd h h2, fun _ => hd⟩
  · exfalso
    apply hdef
    exact ⟨fun h => absurd h h1, fun h => absurd h h2, fun h => absurd h h3⟩
  · exfalso
    apply hdef
    exact ⟨fun h => absurd h h1, fun h => absurd h h2, fun h => absurd h h3⟩

/-- Outside the four modes the switch takes its `default` branch. -/
theorem scaled_position_of_invalid (mode : Int) (st : AxisState) (a : XWindowAttributes)
    (xi yi : input_absinfo) (h : ¬ valid_mode mode) :
    scaled_position mode st a xi yi = .invalid_mode := by
  unfold valid_mode at h
  unfold scaled_position
  split_ifs with h1 h2 h3 h4 <;> first | rfl | (exfalso; apply h; tauto)

theorem query_not_in_button_calls (st : AxisState) (c r : Int) :
    XCall.XGetWindowAttributes ∉ button_calls st c r ++ [XCall.XFlush] := by
  unfold button_calls
  split_ifs <;> simp

theorem button_calls_length (st : AxisState) (c r : Int) :
    (button_calls st c r).length ≤ 1 := by
  unfold button_calls
  split_ifs <;> simp

theorem contact_status_button_commands (s : ContactStatus) (cs : List XCall) :
    contact_status s (button_commands cs) = contact_status s cs := by
  induction cs generalizing s with
  | nil => rfl
  | cons a as ih =>
    cases a with
    | XTestFakeButtonEvent b p => cases p <;> simp [contact_status, button_commands, ih]
    | _ => simp [contact_status, button_commands, ih]

/-- A barrier that is not cut short by `exit` or by a trap returns, and its
button commands are those of the two button tests. -/
theorem handle_event_sync_completed (target : Option XWindowAttributes) (ev : input_event)
    (xi yi pi : input_absinfo) (c r m mode : Int) (st : AxisState)
    (hsyn : ev.type = EV_SYN)
    (hok : st.abs_pressure < m ∨
      ∃ a, target = some a ∧ valid_mode mode ∧ scaling_defined mode st a xi yi) :
    ∃ cs, handle_event target ev xi yi pi c r m mode st = .returned (store_axis ev st) cs ∧
      button_commands cs = button_calls st c r := by
  by_cases hp : st.abs_pressure < m
  · refine ⟨_, handle_event_sync_still target ev xi yi pi c r m mode st hsyn hp, ?_⟩
    simp [button_commands_append, button_commands_button_calls, button_commands]
  · rcases hok with hlt | ⟨a, rfl, hvalid, hdef⟩
    · exact absurd hlt hp
    · obtain ⟨x, y, hpos⟩ := scaled_position_of_valid mode st a xi yi hvalid hdef
      refine ⟨_, handle_event_sync_move a ev xi yi pi c r m mode st x y hsyn (by omega) hpos, ?_⟩
      simp [button_commands_append, button_commands_button_calls, button_commands]

/-! ## Movement gating (C2) -/

/-- C2 as stated fails: on a sync barrier with the valid mode `ASPECT_FILL_X`,
a window-size query that succeeds and stored pressure 10 >= movement threshold
10, an x extent with maximum 0 makes the division of line 59 trap: the process
is killed right after the query and no pointer move is emitted. The same
happens in mode `FULL` with x = -2147483648, width 1 and xMax = -1, where the
quotient is not an `int`. -/
theorem move_missing_when_division_traps :
    sync_report.type = EV_SYN ∧ valid_mode ASPECT_FILL_X ∧
    (10 : Int) ≤ (AxisState.mk 500 500 10).abs_pressure ∧
    handle_event (some ⟨800, 600⟩) sync_report ⟨0, 0⟩ ⟨0, 1000⟩ ⟨0, 255⟩ 50 20 10
        ASPECT_FILL_X ⟨500, 500, 10⟩
      = .killed SIGFPE [XCall.XGetWindowAttributes] ∧
    warp_commands (handle_event (some ⟨800, 600⟩) sync_report ⟨0, 0⟩ ⟨0, 1000⟩ ⟨0, 255⟩
        50 20 10 ASPECT_FILL_X ⟨500, 500, 10⟩).calls = [] ∧
    handle_event (some ⟨1, 1⟩) sync_report ⟨-2147483648, -1⟩ ⟨0, 1000⟩ ⟨0, 255⟩ 50 20 10
        FULL ⟨-2147483648, 0, 10⟩
      = .killed SIGFPE [XCall.XGetWindowAttributes] := by
  decide

/-- C2, amended: on a sync barrier with a valid scaling mode, a window-size
query that succeeds and divisions of the mode that are defined (the extent
maximum divided by is not zero, and the quotient is not that of `INT_MIN` by
-1), a pointer-move command is emitted exactly when the stored pressure is at
least `movement_threshold`; below it no move is emitted and the window size is
not asked for. Whether a move is emitted is the same for all click and release
thresholds and for all states with the same stored pressure whose divisions
are defined. -/
theorem move_iff_pressure_reaches_movement_threshold
    (a : XWindowAttributes) (ev : input_event) (xi yi pi : input_absinfo)
    (c r m mode : Int) (st : AxisState)
    (hsyn : ev.type = EV_SYN) (hvalid : valid_mode mode)
    (hdef : scaling_defined mode st a xi yi) :
    ((∃ x y, warp_commands (handle_event (some a) ev xi yi pi c r m mode st).calls
        = [XCall.XWarpPointer x y]) ↔ m ≤ st.abs_pressure) ∧
    (st.abs_pressure < m →
      warp_commands (handle_event (some a) ev xi yi pi c r m mode st).calls = [] ∧
      XCall.XGetWindowAttributes ∉ (handle_event (some a) ev xi yi pi c r m mode st).calls) ∧
    (∀ c2 r2 : Int,
      warp_commands (handle_event (some a) ev xi yi pi c2 r2 m mode st).calls
        = warp_commands (handle_event (some a) ev xi yi pi c r m mode st).calls) ∧
    (∀ st2 : AxisState, st2.abs_pressure = st.abs_pressure →
      scaling_defined mode st2 a xi yi →
      (warp_commands (handle_event (some a) ev xi yi pi c r m mode st2).calls = [] ↔
        warp_commands (handle_event (some a) ev xi yi pi c r m mode st).calls = [])) := by
  have still : ∀ (c2 r2 : Int) (s2 : AxisState), s2.abs_pressure < m →
      warp_commands (handle_event (some a) ev xi yi pi c2 r2 m mode s2).calls = [] := by
    intro c2 r2 s2 h
    rw [handle_event_sync_still (some a) ev xi yi pi c2 r2 m mode s2 hsyn h]
    simp [Outcome.calls, warp_commands_append, warp_commands_button_calls, warp_commands]
  have move : ∀ (c2 r2 : Int) (s2 : AxisState), scaling_defined mode s2 a xi yi →
      m ≤ s2.abs_pressure →
      ∃ x y, scaled_position mode s2 a xi yi = .position x y ∧
        warp_commands (handle_event (some a) ev xi yi pi c2 r2 m mode s2).calls
          = [XCall.XWarpPointer x y] := by
    intro c2 r2 s2 hd h
    obtain ⟨x, y, hpos⟩ := scaled_position_of_valid mode s2 a xi yi hvalid hd
    refine ⟨x, y, hpos, ?_⟩
    rw [handle_event_sync_move a ev xi yi pi c2 r2 m mode s2 x y hsyn h hpos]
    simp [Outcome.calls, warp_commands_append, warp_commands_button_calls, warp_commands]
  refine ⟨⟨?_, ?_⟩, ?_, ?_, ?_⟩
  · rintro ⟨x, y, h⟩
    by_contra hlt
    rw [still c r st (by omega)] at h
    cases h
  · intro h
    obtain ⟨x, y, _, hw⟩ := move c r st hdef h
    exact ⟨x, y, hw⟩
  · intro h
    refine ⟨still c r st h, ?_⟩
    rw [handle_event_sync_still (some a) ev xi yi pi c r m mode st hsyn h]
    exact query_not_in_button_calls st c r
  · intro c2 r2
    by_cases h : st.abs_pressure < m
    · rw [still c2 r2 st h, still c r st h]
    · obtain ⟨x, y, hpos, hw⟩ := move c r st hdef (by omega)
      obtain ⟨x2, y2, hpos2, hw2⟩ := move c2 r2 st hdef (by omega)
      rw [hw, hw2]
      rw [hpos] at hpos2
      cases hpos2
      rfl
  · intro st2 hst hdef2
    by_cases h : st.abs_pressure < m
    · rw [still c r st h, still c r st2 (by omega)]
    · obtain ⟨x, y, _, hw⟩ := move c r st hdef (by omega)
      obtain ⟨x2, y2, _, hw2⟩ := move c r st2 hdef2 (by omega)
      rw [hw, hw2]
      simp

/-- C2, witness: `movement_threshold` 10, default mode and thresholds, window
800 by 600, extents up to 1000; stored pressure 5 gives no move and no query,
stored pressure 10 gives a move. -/
theorem move_iff_pressure_reaches_movement_threshold_witness :
    sync_report.type = EV_SYN ∧ valid_mode ASPECT_FILL_X ∧
    scaling_defined ASPECT_FILL_X ⟨500, 500, 10⟩ ⟨800, 600⟩ ⟨0, 1000⟩ ⟨0, 1000⟩ ∧
    scaling_defined ASPECT_FILL_X ⟨500, 500, 5⟩ ⟨800, 600⟩ ⟨0, 1000⟩ ⟨0, 1000⟩ ∧
    (handle_event (some ⟨800, 600⟩) sync_report ⟨0, 1000⟩ ⟨0, 1000⟩ ⟨0, 255⟩ 50 20 10
        ASPECT_FILL_X ⟨500, 500, 10⟩).calls
      = [XCall.XGetWindowAttributes, XCall.XWarpPointer 400 400,
          XCall.XTestFakeButtonEvent 1 false, XCall.XFlush] ∧
    ((∃ x y, warp_commands (handle_event (some ⟨800, 600⟩) sync_report ⟨0, 1000⟩ ⟨0, 1000⟩
        ⟨0, 255⟩ 50 20 10 ASPECT_FILL_X ⟨500, 500, 10⟩).calls = [XCall.XWarpPointer x y])
      ↔ (10 : Int) ≤ (AxisState.mk 500 500 10).abs_pressure) ∧
    (warp_commands (handle_event (some ⟨800, 600⟩) sync_report ⟨0, 1000⟩ ⟨0, 1000⟩ ⟨0, 255⟩
        50 20 10 ASPECT_FILL_X ⟨500, 500, 5⟩).calls = [] ∧
      XCall.XGetWindowAttributes ∉ (handle_event (some ⟨800, 600⟩) sync_report ⟨0, 1000⟩
        ⟨0, 1000⟩ ⟨0, 255⟩ 50 20 10 ASPECT_FILL_X ⟨500, 500, 5⟩).calls) :=
  ⟨rfl, by decide, by decide, by decide, by decide,
    (move_iff_pressure_reaches_movement_threshold ⟨800, 600⟩ sync_report ⟨0, 1000⟩ ⟨0, 1000⟩
      ⟨0, 255⟩ 50 20 10 ASPECT_FILL_X ⟨500, 500, 10⟩ rfl (by decide) (by decide)).1,
    (move_iff_pressure_reaches_movement_threshold ⟨800, 600⟩ sync_report ⟨0, 1000⟩ ⟨0, 1000⟩
      ⟨0, 255⟩ 50 20 10 ASPECT_FILL_X ⟨500, 500, 5⟩ rfl (by decide) (by decide)).2.1
      (by decide)⟩

/-! ## Failure of the window-size query (C9) -/

/-- C9: on a sync barrier whose window-size query fails, the query is made
exactly when the stored pressure is at least `movement_threshold`, and then
`handle_event` exits with status 1 right after the query: no pointer move and
no button command is emitted, whatever the scaling mode, the pressure and the
thresholds. -/
theorem failed_query_aborts_barrier (ev : input_event) (xi yi pi : input_absinfo)
    (c r m mode : Int) (st : AxisState) (hsyn : ev.type = EV_SYN) :
    (XCall.XGetWindowAttributes ∈ (handle_event none ev xi yi pi c r m mode st).calls
      ↔ m ≤ st.abs_pressure) ∧
    (m ≤ st.abs_pressure →
      handle_event none ev xi yi pi c r m mode st
        = .exited 1 .window_attributes_failed [XCall.XGetWindowAttributes] ∧
      warp_commands (handle_event none ev xi yi pi c r m mode st).calls = [] ∧
      button_commands (handle_event none ev xi yi pi c r m mode st).calls = [] ∧
      commands (handle_event none ev xi yi pi c r m mode st).calls = [] ∧
      XCall.XFlush ∉ (handle_event none ev xi yi pi c r m mode st).calls) := by
  constructor
  · constructor
    · intro hq
      by_contra hlt
      rw [handle_event_sync_still none ev xi yi pi c r m mode st hsyn (by omega)] at hq
      exact query_not_in_button_calls st c r hq
    · intro hp
      rw [handle_event_sync_no_window ev xi yi pi c r m mode st hsyn hp]
      simp [Outcome.calls]
  · intro hp
    rw [handle_event_sync_no_window ev xi yi pi c r m mode st hsyn hp]
    simp [Outcome.calls, warp_commands, button_commands, commands]

/-- C9, witness: stored pressure 60 with thresholds 50, 20 and 0 in mode `FULL`;
the query fails and nothing but the query is sent. -/
theorem failed_query_aborts_barrier_witness :
    sync_report.type = EV_SYN ∧
    (handle_event none sync_report ⟨0, 1000⟩ ⟨0, 1000⟩ ⟨0, 255⟩ 50 20 0 FULL ⟨200, 300, 60⟩
        = .exited 1 .window_attributes_failed [XCall.XGetWindowAttributes] ∧
      warp_commands (handle_event none sync_report ⟨0, 1000⟩ ⟨0, 1000⟩ ⟨0, 255⟩ 50 20 0 FULL
        ⟨200, 300, 60⟩).calls = [] ∧
      button_commands (handle_event none sync_report ⟨0, 1000⟩ ⟨0, 1000⟩ ⟨0, 255⟩ 50 20 0 FULL
        ⟨200, 300, 60⟩).calls = [] ∧
      commands (handle_event none sync_report ⟨0, 1000⟩ ⟨0, 1000⟩ ⟨0, 255⟩ 50 20 0 FULL
        ⟨200, 300, 60⟩).calls = [] ∧
      XCall.XFlush ∉ (handle_event none sync_report ⟨0, 1000⟩ ⟨0, 1000⟩ ⟨0, 255⟩ 50 20 0 FULL
        ⟨200, 300, 60⟩).calls) :=
  ⟨rfl, (failed_query_aborts_barrier sync_report ⟨0, 1000⟩ ⟨0, 1000⟩ ⟨0, 255⟩ 50 20 0 FULL
    ⟨200, 300, 60⟩ rfl).2 (by decide)⟩

/-! ## Events that are not axis reports (C6) -/

/-- C6, at the failing input: a sync event with code `SYN_CONFIG` (1, the
number of `ABS_Y`) and value 7 leaves `handle_event` with `abs_y` overwritten
by 7, and one with code `SYN_REPORT` (0, the number of `ABS_X`) and value 9
with `abs_x` overwritten by 9, although neither is an axis report; an event of
any other kind than `EV_SYN` and `EV_ABS` changes nothing. -/
theorem sync_event_falls_into_axis_switch :
    handle_event (some ⟨800, 600⟩) ⟨EV_SYN, SYN_CONFIG, 7⟩ ⟨0, 1000⟩ ⟨0, 1000⟩ ⟨0, 255⟩
        50 20 0 ASPECT_FILL_X ⟨200, 300, 30⟩
      = .returned ⟨200, 7, 30⟩
          [XCall.XGetWindowAttributes, XCall.XWarpPointer 160 240, XCall.XFlush] ∧
    handle_event (some ⟨800, 600⟩) ⟨EV_SYN, SYN_REPORT, 9⟩ ⟨0, 1000⟩ ⟨0, 1000⟩ ⟨0, 255⟩
        50 20 0 ASPECT_FILL_X ⟨200, 300, 30⟩
      = .returned ⟨9, 300, 30⟩
          [XCall.XGetWindowAttributes, XCall.XWarpPointer 160 240, XCall.XFlush] ∧
    (∀ (target : Option XWindowAttributes) (ev : input_event) (xi yi pi : input_absinfo)
        (c r m mode : Int) (st : AxisState), ev.type ≠ EV_SYN → ev.type ≠ EV_ABS →
      handle_event target ev xi yi pi c r m mode st = .returned st []) := by
  refine ⟨by decide, by decide, ?_⟩
  intro target ev xi yi pi c r m mode st h1 h2
  simp [handle_event, h1, h2]

/-! ## The read loop -/

theorem event_loop_cons_returned (xi yi pi : input_absinfo) (s : Settings) (st st1 : AxisState)
    (rd : Read) (rest : List Read) (cs : List XCall)
    (hrc : rd.rc = LIBEVDEV_READ_STATUS_SUCCESS)
    (h : handle_event rd.target rd.ev xi yi pi s.click_threshold s.release_threshold
      s.movement_threshold s.scaling_mode st = .returned st1 cs) :
    event_loop xi yi pi s st (rd :: rest) =
      { event_loop xi yi pi s st1 rest with
        events_read := (event_loop xi yi pi s st1 rest).events_read + 1,
        calls := cs ++ (event_loop xi yi pi s st1 rest).calls } := by
  simp [event_loop, hrc, h]

theorem event_loop_cons_exited (xi yi pi : input_absinfo) (s : Settings) (st : AxisState)
    (rd : Read) (rest : List Read) (status : Int) (msg : Message) (cs : List XCall)
    (hrc : rd.rc = LIBEVDEV_READ_STATUS_SUCCESS)
    (h : handle_event rd.target rd.ev xi yi pi s.click_threshold s.release_threshold
      s.movement_threshold s.scaling_mode st = .exited status msg cs) :
    event_loop xi yi pi s st (rd :: rest) =
      { stderr := [msg], status := status, events_read := 1, state := st, calls := cs } := by
  simp [event_loop, hrc, h]

theorem store_axis_sync_report (st : AxisState) : store_axis sync_report st = st := by
  simp [store_axis, sync_report, SYN_REPORT, ABS_X]

theorem store_axis_pressure (p : Int) (st : AxisState) :
    store_axis (abs_report ABS_PRESSURE p) st = { st with abs_pressure := p } := by
  simp [store_axis, abs_report, ABS_PRESSURE, ABS_X, ABS_Y]

/-- One frame of a pressure sequence: the report is stored, and the barrier,
when it is not cut short, contributes the button commands for that pressure. -/
theorem button_commands_frame (xi yi pi : input_absinfo) (s : Settings) (st : AxisState)
    (a : XWindowAttributes) (p : Int) (ps : List Int) (hvalid : valid_mode s.scaling_mode)
    (hdef : scaling_defined s.scaling_mode st a xi yi) :
    button_commands
        (event_loop xi yi pi s st (reads_of (some a) (pressure_frames (p :: ps)))).calls
      = button_calls ⟨0, 0, p⟩ s.click_threshold s.release_threshold ++
        button_commands (event_loop xi yi pi s { st with abs_pressure := p }
          (reads_of (some a) (pressure_frames ps))).calls := by
  obtain ⟨cs, hret, hcs⟩ := handle_event_sync_completed (some a) sync_report xi yi pi
    s.click_threshold s.release_threshold s.movement_threshold s.scaling_mode
    { st with abs_pressure := p } rfl (Or.inr ⟨a, rfl, hvalid, hdef⟩)
  rw [store_axis_sync_report] at hret
  have habs := handle_event_abs (some a) (abs_report ABS_PRESSURE p) xi yi pi
    s.click_threshold s.release_threshold s.movement_threshold s.scaling_mode st rfl
  rw [store_axis_pressure] at habs
  simp only [pressure_frames, reads_of, List.map_cons]
  rw [event_loop_cons_returned xi yi pi s st _ (read_ok (abs_report ABS_PRESSURE p) (some a))
    _ [] rfl habs]
  rw [event_loop_cons_returned xi yi pi s _ _ (read_ok sync_report (some a)) _ cs rfl hret]
  simp only [List.nil_append, button_commands_append, hcs]
  rfl

theorem button_commands_no_frame (xi yi pi : input_absinfo) (s : Settings) (st : AxisState)
    (a : XWindowAttributes) :
    button_commands (event_loop xi yi pi s st (reads_of (some a) (pressure_frames []))).calls
      = [] := rfl

/-- The button commands of a whole pressure sequence, frame by frame. -/
theorem button_commands_frames (xi yi pi : input_absinfo) (s : Settings) (st : AxisState)
    (a : XWindowAttributes) (ps : List Int) (hvalid : valid_mode s.scaling_mode)
    (hdef : scaling_defined s.scaling_mode st a xi yi) :
    button_commands (event_loop xi yi pi s st (reads_of (some a) (pressure_frames ps))).calls
      = ps.foldr (fun p acc =>
          button_calls ⟨0, 0, p⟩ s.click_threshold s.release_threshold ++ acc) [] := by
  induction ps generalizing st with
  | nil => rfl
  | cons p ps ih =>
    rw [button_commands_frame xi yi pi s st a p ps hvalid hdef,
      ih { st with abs_pressure := p } hdef]
    rfl

theorem status_after_frames_eq (xi yi pi : input_absinfo) (s : Settings) (st : AxisState)
    (a : XWindowAttributes) (ps : List Int) :
    status_after_frames xi yi pi s st a ps = contact_status .Released (button_commands
      (event_loop xi yi pi s st (reads_of (some a) (pressure_frames ps))).calls) := by
  rw [contact_status_button_commands]
  rfl

/-! ## The button rule (C1) -/

/-- C1 as stated fails: on a sync barrier with stored pressure 60 and click
threshold 50, when the window-size query fails, `handle_event` exits and emits
no button command, not `button 1 pressed`; and when the query succeeds but the
x extent has maximum 0, the division of line 59 traps and the process is
killed before the button tests, again without a button command. -/
theorem button_rule_fails_when_query_fails :
    sync_report.type = EV_SYN ∧
    (50 : Int) ≤ (AxisState.mk 200 300 60).abs_pressure ∧
    handle_event none sync_report ⟨0, 1000⟩ ⟨0, 1000⟩ ⟨0, 255⟩ 50 20 0 ASPECT_FILL_X
        ⟨200, 300, 60⟩
      = .exited 1 .window_attributes_failed [XCall.XGetWindowAttributes] ∧
    button_commands (handle_event none sync_report ⟨0, 1000⟩ ⟨0, 1000⟩ ⟨0, 255⟩ 50 20 0
        ASPECT_FILL_X ⟨200, 300, 60⟩).calls ≠ [XCall.XTestFakeButtonEvent 1 true] ∧
    handle_event (some ⟨800, 600⟩) sync_report ⟨0, 0⟩ ⟨0, 1000⟩ ⟨0, 255⟩ 50 20 0
        ASPECT_FILL_X ⟨200, 300, 60⟩
      = .killed SIGFPE [XCall.XGetWindowAttributes] ∧
    button_commands (handle_event (some ⟨800, 600⟩) sync_report ⟨0, 0⟩ ⟨0, 1000⟩ ⟨0, 255⟩
        50 20 0 ASPECT_FILL_X ⟨200, 300, 60⟩).calls ≠ [XCall.XTestFakeButtonEvent 1 true] := by
  decide

/-- C1, amended: on every sync barrier that `handle_event` completes (the
stored pressure is below `movement_threshold`, or the window-size query
succeeds, the scaling mode is valid and the divisions of the mode are defined:
the extent maximum divided by is not zero, and the quotient is not that of
`INT_MIN` by -1), for every stored pressure and every pair of thresholds, it
returns having emitted at most one button command: `button 1 pressed` if
pressure >= click threshold; otherwise `button 1 released` if pressure <=
release threshold; otherwise none, and the contact status derived from the
commands stays what it was. With thresholds 50 and 20, a valid mode, a window
that answers and divisions that are defined, the pressure reports 0, 30, 60,
15, 35, each followed by a sync barrier, give from `Released` the statuses
Released, Released (no command), Pressed, Released, Released (no command). -/
theorem button_rule_on_completed_barrier
    (target : Option XWindowAttributes) (ev : input_event) (xi yi pi : input_absinfo)
    (c r m mode : Int) (st : AxisState) (s0 : ContactStatus)
    (hsyn : ev.type = EV_SYN)
    (hok : st.abs_pressure < m ∨
      ∃ a, target = some a ∧ valid_mode mode ∧ scaling_defined mode st a xi yi) :
    (∃ cs, handle_event target ev xi yi pi c r m mode st = .returned (store_axis ev st) cs) ∧
    (button_commands (handle_event target ev xi yi pi c r m mode st).calls).length ≤ 1 ∧
    (c ≤ st.abs_pressure →
      button_commands (handle_event target ev xi yi pi c r m mode st).calls
        = [XCall.XTestFakeButtonEvent 1 true] ∧
      contact_status s0 (handle_event target ev xi yi pi c r m mode st).calls = .Pressed) ∧
    (st.abs_pressure < c → st.abs_pressure ≤ r →
      button_commands (handle_event target ev xi yi pi c r m mode st).calls
        = [XCall.XTestFakeButtonEvent 1 false] ∧
      contact_status s0 (handle_event target ev xi yi pi c r m mode st).calls = .Released) ∧
    (st.abs_pressure < c → r < st.abs_pressure →
      button_commands (handle_event target ev xi yi pi c r m mode st).calls = [] ∧
      contact_status s0 (handle_event target ev xi yi pi c r m mode st).calls = s0) ∧
    (∀ (a : XWindowAttributes) (x2 y2 p2 : input_absinfo) (dbg mode2 m2 win : Int)
        (st0 : AxisState), valid_mode mode2 → scaling_defined mode2 st0 a x2 y2 →
      status_after_frames x2 y2 p2 ⟨dbg, mode2, 50, 20, m2, win⟩ st0 a [0] = .Released ∧
      status_after_frames x2 y2 p2 ⟨dbg, mode2, 50, 20, m2, win⟩ st0 a [0, 30] = .Released ∧
      status_after_frames x2 y2 p2 ⟨dbg, mode2, 50, 20, m2, win⟩ st0 a [0, 30, 60] = .Pressed ∧
      status_after_frames x2 y2 p2 ⟨dbg, mode2, 50, 20, m2, win⟩ st0 a [0, 30, 60, 15]
        = .Released ∧
      status_after_frames x2 y2 p2 ⟨dbg, mode2, 50, 20, m2, win⟩ st0 a [0, 30, 60, 15, 35]
        = .Released ∧
      button_commands (event_loop x2 y2 p2 ⟨dbg, mode2, 50, 20, m2, win⟩ st0
          (reads_of (some a) (pressure_frames [0, 30]))).calls
        = button_commands (event_loop x2 y2 p2 ⟨dbg, mode2, 50, 20, m2, win⟩ st0
          (reads_of (some a) (pressure_frames [0]))).calls ∧
      button_commands (event_loop x2 y2 p2 ⟨dbg, mode2, 50, 20, m2, win⟩ st0
          (reads_of (some a) (pressure_frames [0, 30, 60, 15, 35]))).calls
        = button_commands (event_loop x2 y2 p2 ⟨dbg, mode2, 50, 20, m2, win⟩ st0
          (reads_of (some a) (pressure_frames [0, 30, 60, 15]))).calls) := by
  obtain ⟨cs, hret, hcs⟩ :=
    handle_event_sync_completed target ev xi yi pi c r m mode st hsyn hok
  have hst : ∀ s : ContactStatus, contact_status s cs
      = contact_status s (button_calls st c r) := by
    intro s
    rw [← contact_status_button_commands, hcs]
  rw [hret]
  simp only [Outcome.calls, hcs, hst]
  refine ⟨⟨cs, rfl⟩, button_calls_length st c r, ?_, ?_, ?_, ?_⟩
  · intro h
    have h2 : st.abs_pressure ≥ c := h
    simp [button_calls, h2, contact_status]
  · intro h1 h2
    have h3 : ¬ st.abs_pressure ≥ c := by omega
    simp [button_calls, h3, h2, contact_status]
  · intro h1 h2
    have h3 : ¬ st.abs_pressure ≥ c := by omega
    have h4 : ¬ st.abs_pressure ≤ r := by omega
    simp [button_calls, h3, h4, contact_status]
  · intro a x2 y2 p2 dbg mode2 m2 win st0 hvalid hdef
    have hv : valid_mode (Settings.mk dbg mode2 50 20 m2 win).scaling_mode := hvalid
    have hd : scaling_defined (Settings.mk dbg mode2 50 20 m2 win).scaling_mode st0 a x2 y2 :=
      hdef
    simp only [status_after_frames_eq]
    simp only [button_commands_frames x2 y2 p2 _ st0 a _ hv hd]
    simp [button_calls, contact_status]

/-- C1, witness: the default thresholds 50 and 20, `movement_threshold` 0, a
window of 800 by 600, extents up to 1000 and stored pressure 60. -/
theorem button_rule_on_completed_barrier_witness :
    sync_report.type = EV_SYN ∧
    ((AxisState.mk 200 300 60).abs_pressure < 0 ∨
      ∃ a, some (XWindowAttributes.mk 800 600) = some a ∧ valid_mode ASPECT_FILL_X ∧
        scaling_defined ASPECT_FILL_X ⟨200, 300, 60⟩ a ⟨0, 1000⟩ ⟨0, 1000⟩) ∧
    button_commands (handle_event (some ⟨800, 600⟩) sync_report ⟨0, 1000⟩ ⟨0, 1000⟩ ⟨0, 255⟩
        50 20 0 ASPECT_FILL_X ⟨200, 300, 60⟩).calls = [XCall.XTestFakeButtonEvent 1 true] ∧
    contact_status .Released (handle_event (some ⟨800, 600⟩) sync_report ⟨0, 1000⟩ ⟨0, 1000⟩
        ⟨0, 255⟩ 50 20 0 ASPECT_FILL_X ⟨200, 300, 60⟩).calls = .Pressed :=
  ⟨rfl, Or.inr ⟨⟨800, 600⟩, rfl, by decide, by decide⟩,
    (button_rule_on_completed_barrier (some ⟨800, 600⟩) sync_report ⟨0, 1000⟩ ⟨0, 1000⟩
      ⟨0, 255⟩ 50 20 0 ASPECT_FILL_X ⟨200, 300, 60⟩ .Released rfl
      (Or.inr ⟨⟨800, 600⟩, rfl, by decide, by decide⟩)).2.2.1 (by decide)⟩

/-! ## Coordinate mapping (C3, C10) -/

theorem warp_commands_sync_move (a : XWindowAttributes) (ev : input_event)
    (xi yi pi : input_absinfo) (c r m mode : Int) (st : AxisState) (x y : Int)
    (hsyn : ev.type = EV_SYN) (hp : m ≤ st.abs_pressure)
    (hpos : scaled_position mode st a xi yi = .position x y) :
    warp_commands (handle_event (some a) ev xi yi pi c r m mode st).calls
      = [XCall.XWarpPointer x y] := by
  rw [handle_event_sync_move a ev xi yi pi c r m mode st x y hsyn hp hpos]
  simp [Outcome.calls, warp_commands_append, warp_commands_button_calls, warp_commands]

theorem warp_commands_sync_still (target : Option XWindowAttributes) (ev : input_event)
    (xi yi pi : input_absinfo) (c r m mode : Int) (st : AxisState)
    (hsyn : ev.type = EV_SYN) (hp : st.abs_pressure < m) :
    warp_commands (handle_event target ev xi yi pi c r m mode st).calls = [] := by
  rw [handle_event_sync_still target ev xi yi pi c r m mode st hsyn hp]
  simp [Outcome.calls, warp_commands_append, warp_commands_button_calls, warp_commands]

/-- The pointer moves of a barrier are determined by what the mode switch
computes. -/
theorem warp_commands_congr (a a2 : XWindowAttributes) (ev : input_event)
    (xi yi pi xi2 yi2 : input_absinfo) (c r m mode : Int) (st : AxisState)
    (hpos : scaled_position mode st a2 xi2 yi2 = scaled_position mode st a xi yi) :
    warp_commands (handle_event (some a2) ev xi2 yi2 pi c r m mode st).calls
      = warp_commands (handle_event (some a) ev xi yi pi c r m mode st).calls := by
  rw [handle_event_congr a a2 ev xi yi pi xi2 yi2 c r m mode st hpos]

/-- C3 as stated fails: in mode `FULL` with x = 100000, width = 30000 and
xMax = 100000 the product 3000000000 does not fit a 32-bit `int`; the code
warps to x = -12949 where the reference mapping gives 30000. -/
theorem scaled_position_differs_on_overflow :
    (input_absinfo.mk 0 100000).maximum ≠ 0 ∧
    warp_commands (handle_event (some ⟨30000, 1000⟩) sync_report ⟨0, 100000⟩ ⟨0, 100000⟩
        ⟨0, 255⟩ 50 20 0 FULL ⟨100000, 0, 60⟩).calls = [XCall.XWarpPointer (-12949) 0] ∧
    reference_map .Full 100000 0 100000 100000 30000 1000 = (30000, 0) := by
  decide

/-- C3, amended: for all x, y, window width and height and non-zero extent
maxima such that the products and quotients of the mode's reference mapping are
representable as 32-bit `int`, the pointer position computed on a sync barrier
equals the reference mapping with truncating division: Full gives
(x*width/xMax, y*height/yMax), AspectFillX (x*width/xMax, y*width/xMax),
AspectFillY (x*height/yMax, y*height/yMax), None (x, y). Without any
representability condition, the AspectFillX position does not depend on yMax
and height, the AspectFillY position not on xMax and width, and the None
position not on the window size. -/
theorem scaled_position_matches_reference
    (mode : ScalingMode) (a : XWindowAttributes) (ev : input_event)
    (xi yi pi : input_absinfo) (c r m : Int) (st : AxisState)
    (hsyn : ev.type = EV_SYN) (hp : m ≤ st.abs_pressure)
    (hxm : xi.maximum ≠ 0) (hym : yi.maximum ≠ 0)
    (hfit : reference_fits mode st.abs_x st.abs_y xi.maximum yi.maximum a.width a.height) :
    warp_commands (handle_event (some a) ev xi yi pi c r m mode.toInt st).calls
      = [XCall.XWarpPointer
          (reference_map mode st.abs_x st.abs_y xi.maximum yi.maximum a.width a.height).1
          (reference_map mode st.abs_x st.abs_y xi.maximum yi.maximum a.width a.height).2] ∧
    (∀ (yi2 : input_absinfo) (height2 : Int),
      warp_commands (handle_event (some ⟨a.width, height2⟩) ev xi yi2 pi c r m
          ASPECT_FILL_X st).calls
        = warp_commands (handle_event (some a) ev xi yi pi c r m ASPECT_FILL_X st).calls) ∧
    (∀ (xi2 : input_absinfo) (width2 : Int),
      warp_commands (handle_event (some ⟨width2, a.height⟩) ev xi2 yi pi c r m
          ASPECT_FILL_Y st).calls
        = warp_commands (handle_event (some a) ev xi yi pi c r m ASPECT_FILL_Y st).calls) ∧
    (∀ a2 : XWindowAttributes,
      warp_commands (handle_event (some a2) ev xi yi pi c r m NONE st).calls
        = warp_commands (handle_event (some a) ev xi yi pi c r m NONE st).calls) := by
  refine ⟨?_, ?_, ?_, ?_⟩
  · apply warp_commands_sync_move a ev xi yi pi c r m _ st _ _ hsyn hp
    cases mode with
    | Full =>
      obtain ⟨h1, h2⟩ := hfit
      simp [scaled_position, ScalingMode.toInt, reference_map, Scaled.of_quotients,
        int_div_int_mul_of_fits h1 hxm, int_div_int_mul_of_fits h2 hym]
    | AspectFillX =>
      obtain ⟨h1, h2⟩ := hfit
      simp [scaled_position, ScalingMode.toInt, reference_map, FULL, ASPECT_FILL_X,
        Scaled.of_quotients, int_div_int_mul_of_fits h1 hxm, int_div_int_mul_of_fits h2 hxm]
    | AspectFillY =>
      obtain ⟨h1, h2⟩ := hfit
      simp [scaled_position, ScalingMode.toInt, reference_map, FULL, ASPECT_FILL_X,
        ASPECT_FILL_Y, Scaled.of_quotients, int_div_int_mul_of_fits h1 hym,
        int_div_int_mul_of_fits h2 hym]
    | None =>
      simp [scaled_position, ScalingMode.toInt, reference_map, FULL, ASPECT_FILL_X,
        ASPECT_FILL_Y, NONE]
  · intro yi2 height2
    apply warp_commands_congr a _ ev xi yi pi xi yi2 c r m _ st
    simp [scaled_position, FULL, ASPECT_FILL_X]
  · intro xi2 width2
    apply warp_commands_congr a _ ev xi yi pi xi2 yi c r m _ st
    simp [scaled_position, FULL, ASPECT_FILL_X, ASPECT_FILL_Y]
  · intro a2
    apply warp_commands_congr a _ ev xi yi pi xi yi c r m _ st
    simp [scaled_position, FULL, ASPECT_FILL_X, ASPECT_FILL_Y, NONE]

/-- C3, witness: Full with xMax = 1000, width = 500, x = 500 gives px = 250;
AspectFillX with xMax = 1000, width = 800, x = y = 500 gives (400, 400); None
with (123, 456) gives (123, 456). -/
theorem scaled_position_matches_reference_witness :
    sync_report.type = EV_SYN ∧ (0 : Int) ≤ (AxisState.mk 500 500 60).abs_pressure ∧
    (input_absinfo.mk 0 1000).maximum ≠ 0 ∧
    reference_fits .Full 500 500 1000 1000 500 400 ∧
    reference_fits .AspectFillX 500 500 1000 700 800 600 ∧
    warp_commands (handle_event (some ⟨500, 400⟩) sync_report ⟨0, 1000⟩ ⟨0, 1000⟩ ⟨0, 255⟩
        50 20 0 FULL ⟨500, 500, 60⟩).calls = [XCall.XWarpPointer 250 200] ∧
    warp_commands (handle_event (some ⟨800, 600⟩) sync_report ⟨0, 1000⟩ ⟨0, 700⟩ ⟨0, 255⟩
        50 20 0 ASPECT_FILL_X ⟨500, 500, 60⟩).calls = [XCall.XWarpPointer 400 400] ∧
    warp_commands (handle_event (some ⟨800, 600⟩) sync_report ⟨0, 1000⟩ ⟨0, 700⟩ ⟨0, 255⟩
        50 20 0 NONE ⟨123, 456, 60⟩).calls = [XCall.XWarpPointer 123 456] :=
  ⟨rfl, by decide, by decide, by decide, by decide,
    (scaled_position_matches_reference .Full ⟨500, 400⟩ sync_report ⟨0, 1000⟩ ⟨0, 1000⟩
      ⟨0, 255⟩ 50 20 0 ⟨500, 500, 60⟩ rfl (by decide) (by decide) (by decide)
      (by decide)).1,
    (scaled_position_matches_reference .AspectFillX ⟨800, 600⟩ sync_report ⟨0, 1000⟩ ⟨0, 700⟩
      ⟨0, 255⟩ 50 20 0 ⟨500, 500, 60⟩ rfl (by decide) (by decide) (by decide)
      (by decide)).1,
    (scaled_position_matches_reference .None ⟨800, 600⟩ sync_report ⟨0, 1000⟩ ⟨0, 700⟩
      ⟨0, 255⟩ 50 20 0 ⟨123, 456, 60⟩ rfl (by decide) (by decide) (by decide)
      (by decide)).1⟩

/-- C10: in mode `FULL`, for positive extent maxima, a window of non-negative
width and height, 0 <= x <= xMax, 0 <= y <= yMax and products x*width and
y*height representable as 32-bit `int`, the position warped to on a sync
barrier satisfies 0 <= px <= width and 0 <= py <= height. -/
theorem full_position_within_surface
    (a : XWindowAttributes) (ev : input_event) (xi yi pi : input_absinfo)
    (c r m : Int) (st : AxisState)
    (hsyn : ev.type = EV_SYN) (hp : m ≤ st.abs_pressure)
    (hxm : 0 < xi.maximum) (hym : 0 < yi.maximum)
    (hw : 0 ≤ a.width) (hh : 0 ≤ a.height)
    (hx0 : 0 ≤ st.abs_x) (hx1 : st.abs_x ≤ xi.maximum)
    (hy0 : 0 ≤ st.abs_y) (hy1 : st.abs_y ≤ yi.maximum)
    (hpx : in_int (st.abs_x * a.width)) (hpy : in_int (st.abs_y * a.height)) :
    ∃ px py,
      warp_commands (handle_event (some a) ev xi yi pi c r m FULL st).calls
        = [XCall.XWarpPointer px py] ∧
      0 ≤ px ∧ px ≤ a.width ∧ 0 ≤ py ∧ py ≤ a.height := by
  have key : ∀ (v w mx : Int), 0 < mx → 0 ≤ w → 0 ≤ v → v ≤ mx → in_int (v * w) →
      fits_int v w mx ∧ 0 ≤ Int.tdiv (v * w) mx ∧ Int.tdiv (v * w) mx ≤ w := by
    intro v w mx hmx hw0 hv0 hv1 hin
    have hprod : 0 ≤ v * w := Int.mul_nonneg hv0 hw0
    have hq : Int.tdiv (v * w) mx = v * w / mx := Int.tdiv_eq_ediv hprod (le_of_lt hmx)
    have hq0 : 0 ≤ v * w / mx := Int.ediv_nonneg hprod (le_of_lt hmx)
    have hqw : v * w / mx ≤ w := by
      apply Int.ediv_le_of_le_mul hmx
      calc v * w ≤ mx * w := Int.mul_le_mul_of_nonneg_right hv1 hw0
        _ = w * mx := Int.mul_comm _ _
    have hqp : v * w / mx ≤ v * w := Int.ediv_le_self _ hprod
    refine ⟨⟨hin, ?_⟩, ?_, ?_⟩
    · rw [hq]
      unfold in_int INT_MIN INT_MAX at *
      omega
    · rw [hq]; exact hq0
    · rw [hq]; exact hqw
  obtain ⟨fx, hx2, hx3⟩ := key st.abs_x a.width xi.maximum hxm hw hx0 hx1 hpx
  obtain ⟨fy, hy2, hy3⟩ := key st.abs_y a.height yi.maximum hym hh hy0 hy1 hpy
  refine ⟨Int.tdiv (st.abs_x * a.width) xi.maximum, Int.tdiv (st.abs_y * a.height) yi.maximum,
    ?_, hx2, hx3, hy2, hy3⟩
  apply warp_commands_sync_move a ev xi yi pi c r m _ st _ _ hsyn hp
  simp [scaled_position, Scaled.of_quotients, int_div_int_mul_of_fits fx (ne_of_gt hxm),
    int_div_int_mul_of_fits fy (ne_of_gt hym)]

/-- C10, witness: x = 999 of 1000 and y = 1000 of 1000 on a window of 1920 by
1080 give a position inside the window. -/
theorem full_position_within_surface_witness :
    sync_report.type = EV_SYN ∧ in_int (999 * 1920) ∧ in_int (1000 * 1080) ∧
    ∃ px py,
      warp_commands (handle_event (some ⟨1920, 1080⟩) sync_report ⟨0, 1000⟩ ⟨0, 1000⟩
        ⟨0, 255⟩ 50 20 0 FULL ⟨999, 1000, 60⟩).calls = [XCall.XWarpPointer px py] ∧
      0 ≤ px ∧ px ≤ (XWindowAttributes.mk 1920 1080).width ∧
      0 ≤ py ∧ py ≤ (XWindowAttributes.mk 1920 1080).height :=
  ⟨rfl, by decide, by decide,
    full_position_within_surface ⟨1920, 1080⟩ sync_report ⟨0, 1000⟩ ⟨0, 1000⟩ ⟨0, 255⟩
      50 20 0 ⟨999, 1000, 60⟩ rfl (by decide) (by decide) (by decide) (by decide) (by decide)
      (by decide) (by decide) (by decide) (by decide) (by decide) (by decide)⟩

/-! ## The axis store (C4) -/

theorem getLast?_map_getD_cons {α : Type} (f : α → Int) (d : Int) (e : α) (l : List α) :
    (((e :: l).getLast?).map f).getD d = ((l.getLast?).map f).getD (f e) := by
  induction l generalizing e d with
  | nil => rfl
  | cons b l ih =>
    rw [List.getLast?_cons_cons, ih, ih]

theorem last_reported_cons (code : Int) (skip_zero : Bool) (d : Int) (e : input_event)
    (es : List input_event) :
    last_reported code skip_zero d (e :: es) =
      last_reported code skip_zero
        (if e.code = code ∧ (skip_zero = false ∨ e.value ≠ 0) then e.value else d) es := by
  unfold last_reported
  by_cases h : e.code = code ∧ (skip_zero = false ∨ e.value ≠ 0)
  · have hf : (decide (e.code = code) && (!skip_zero || decide (e.value ≠ 0))) = true := by
      obtain ⟨h1, h2⟩ := h
      cases skip_zero <;> simp_all
    simp only [List.filter_cons, hf, if_true]
    rw [getLast?_map_getD_cons, if_pos h]
  · have hf : ¬ (decide (e.code = code) && (!skip_zero || decide (e.value ≠ 0))) = true := by
      intro hc
      apply h
      cases skip_zero <;> simp_all
    rw [if_neg h]
    simp only [List.filter_cons, hf]
    rfl

theorem store_axis_eq (e : input_event) (st : AxisState) :
    store_axis e st =
      ⟨if e.code = ABS_X ∧ ((true : Bool) = false ∨ e.value ≠ 0) then e.value else st.abs_x,
       if e.code = ABS_Y ∧ ((false : Bool) = false ∨ e.value ≠ 0) then e.value else st.abs_y,
       if e.code = ABS_PRESSURE ∧ ((false : Bool) = false ∨ e.value ≠ 0) then e.value
         else st.abs_pressure⟩ := by
  unfold store_axis ABS_X ABS_Y ABS_PRESSURE
  by_cases h0 : e.code = 0
  · by_cases hv : e.value = 0 <;> simp [h0, hv]
  · by_cases h1 : e.code = 1
    · simp [h1]
    · by_cases h2 : e.code = 24 <;> simp [h0, h1, h2]

/-- From any state, a run of successfully read axis reports ends in the state
that holds, per axis, the last report that counts. -/
theorem event_loop_abs_reports (xi yi pi : input_absinfo) (s : Settings)
    (reads : List Read) (st : AxisState)
    (hall : ∀ rd ∈ reads, rd.rc = LIBEVDEV_READ_STATUS_SUCCESS ∧ rd.ev.type = EV_ABS) :
    (event_loop xi yi pi s st reads).state =
      ⟨last_reported ABS_X true st.abs_x (reads.map (fun rd => rd.ev)),
       last_reported ABS_Y false st.abs_y (reads.map (fun rd => rd.ev)),
       last_reported ABS_PRESSURE false st.abs_pressure (reads.map (fun rd => rd.ev))⟩ ∧
    (event_loop xi yi pi s st reads).calls = [] ∧
    (event_loop xi yi pi s st reads).stderr = [] ∧
    (event_loop xi yi pi s st reads).events_read = reads.length := by
  induction reads generalizing st with
  | nil => exact ⟨rfl, rfl, rfl, rfl⟩
  | cons rd rest ih =>
    obtain ⟨hrc, habs⟩ := hall rd (List.mem_cons_self _ _)
    have hrest : ∀ r ∈ rest, r.rc = LIBEVDEV_READ_STATUS_SUCCESS ∧ r.ev.type = EV_ABS :=
      fun r hr => hall r (List.mem_cons_of_mem _ hr)
    obtain ⟨h1, h2, h3, h4⟩ := ih (store_axis rd.ev st) hrest
    rw [event_loop_cons_returned xi yi pi s st _ rd rest [] hrc
      (handle_event_abs rd.target rd.ev xi yi pi _ _ _ _ st habs)]
    refine ⟨?_, ?_, ?_, ?_⟩
    · simp only [List.map_cons, last_reported_cons]
      rw [h1, store_axis_eq rd.ev st]
      simp
    · simpa using h2
    · simpa using h3
    · simpa using h4

/-- C4: after any finite sequence of axis reports handled from the initial
state (0,0,0), the stored x is the value of the last X report with a non-zero
value (0 if there is none), the stored y the value of the last Y report and the
stored pressure the value of the last pressure report, whatever it is (0 if the
axis was never reported); no X call is made. An X report of 0 changes nothing,
and a report for one axis leaves the two other stored values as they were. -/
theorem axis_store_holds_last_reports (xi yi pi : input_absinfo) (s : Settings)
    (reads : List Read)
    (hall : ∀ rd ∈ reads, rd.rc = LIBEVDEV_READ_STATUS_SUCCESS ∧ rd.ev.type = EV_ABS) :
    (event_loop xi yi pi s AxisState.initial reads).state =
      ⟨last_reported ABS_X true 0 (reads.map (fun rd => rd.ev)),
       last_reported ABS_Y false 0 (reads.map (fun rd => rd.ev)),
       last_reported ABS_PRESSURE false 0 (reads.map (fun rd => rd.ev))⟩ ∧
    (event_loop xi yi pi s AxisState.initial reads).calls = [] ∧
    (∀ (target : Option XWindowAttributes) (c r m mode : Int) (st : AxisState) (v : Int),
      handle_event target (abs_report ABS_X 0) xi yi pi c r m mode st = .returned st [] ∧
      (v ≠ 0 → handle_event target (abs_report ABS_X v) xi yi pi c r m mode st
        = .returned ⟨v, st.abs_y, st.abs_pressure⟩ []) ∧
      handle_event target (abs_report ABS_Y v) xi yi pi c r m mode st
        = .returned ⟨st.abs_x, v, st.abs_pressure⟩ [] ∧
      handle_event target (abs_report ABS_PRESSURE v) xi yi pi c r m mode st
        = .returned ⟨st.abs_x, st.abs_y, v⟩ []) := by
  obtain ⟨h1, h2, _, _⟩ := event_loop_abs_reports xi yi pi s reads AxisState.initial hall
  refine ⟨h1, h2, ?_⟩
  intro target c r m mode st v
  refine ⟨?_, ?_, ?_, ?_⟩
  · rw [handle_event_abs _ _ _ _ _ _ _ _ _ _ rfl]
    simp [store_axis, abs_report]
  · intro hv
    rw [handle_event_abs _ _ _ _ _ _ _ _ _ _ rfl]
    simp [store_axis, abs_report, hv]
  · rw [handle_event_abs _ _ _ _ _ _ _ _ _ _ rfl]
    simp [store_axis, abs_report, ABS_X, ABS_Y]
  · rw [handle_event_abs _ _ _ _ _ _ _ _ _ _ rfl]
    simp [store_axis, abs_report, ABS_X, ABS_Y, ABS_PRESSURE]

/-- C4, witness: the reports X=7, Y=5, X=0, P=9, Y=0, P=0 leave the state
(7, 0, 0). -/
theorem axis_store_holds_last_reports_witness :
    (∀ rd ∈ reads_of none [abs_report ABS_X 7, abs_report ABS_Y 5, abs_report ABS_X 0,
        abs_report ABS_PRESSURE 9, abs_report ABS_Y 0, abs_report ABS_PRESSURE 0],
      rd.rc = LIBEVDEV_READ_STATUS_SUCCESS ∧ rd.ev.type = EV_ABS) ∧
    (event_loop ⟨0, 1000⟩ ⟨0, 1000⟩ ⟨0, 255⟩ Settings.default AxisState.initial
      (reads_of none [abs_report ABS_X 7, abs_report ABS_Y 5, abs_report ABS_X 0,
        abs_report ABS_PRESSURE 9, abs_report ABS_Y 0, abs_report ABS_PRESSURE 0])).state
      = ⟨7, 0, 0⟩ :=
  ⟨by decide,
    (axis_store_holds_last_reports ⟨0, 1000⟩ ⟨0, 1000⟩ ⟨0, 255⟩ Settings.default
      (reads_of none [abs_report ABS_X 7, abs_report ABS_Y 5, abs_report ABS_X 0,
        abs_report ABS_PRESSURE 9, abs_report ABS_Y 0, abs_report ABS_PRESSURE 0])
      (by decide)).1.trans (by decide)⟩

/-! ## End-to-end dispatch (C5) -/

/-- C5 as stated fails: with X = 70000, Y = 300, pressure 60, thresholds 50, 20
and 0, mode `FULL`, xMax = 70000, yMax = 1000 and a window of 40000 by 400 the
product 2800000000 does not fit a 32-bit `int`; the barrier warps to
(-21356, 120), not to (x*width/xMax, y*height/yMax) = (40000, 120). And with
X = 200, Y = 300, xMax = 0 and a window of 400 by 400 the division of line 55
traps: the process is killed right after the query, with no warp and no button
command. -/
theorem end_to_end_differs_on_overflow :
    (70000 : Int) ≠ 0 ∧ (0 : Int) ≤ 60 ∧ (50 : Int) ≤ 60 ∧
    (event_loop ⟨0, 70000⟩ ⟨0, 1000⟩ ⟨0, 255⟩ ⟨0, FULL, 50, 20, 0, 0⟩ AxisState.initial
      [read_ok (abs_report ABS_X 70000) none, read_ok (abs_report ABS_Y 300) none,
        read_ok (abs_report ABS_PRESSURE 60) none,
        read_ok sync_report (some ⟨40000, 400⟩)]).calls
      = [XCall.XGetWindowAttributes, XCall.XWarpPointer (-21356) 120,
          XCall.XTestFakeButtonEvent 1 true, XCall.XFlush] ∧
    (Int.tdiv (70000 * 40000) 70000, Int.tdiv (300 * 400) 1000) = ((40000 : Int), (120 : Int)) ∧
    (200 : Int) ≠ 0 ∧
    event_loop ⟨0, 0⟩ ⟨0, 1000⟩ ⟨0, 255⟩ ⟨0, FULL, 50, 20, 0, 0⟩ AxisState.initial
      [read_ok (abs_report ABS_X 200) none, read_ok (abs_report ABS_Y 300) none,
        read_ok (abs_report ABS_PRESSURE 60) none,
        read_ok sync_report (some ⟨400, 400⟩)]
      = { stderr := [], status := 128 + SIGFPE, events_read := 4, state := ⟨200, 300, 60⟩,
          calls := [XCall.XGetWindowAttributes] } := by
  decide

/-- C5, amended: from the initial state, for every non-zero x, every y and
every pressure p with p >= movement threshold and p >= click threshold, for
non-zero extent maxima xMax and yMax and a window (width, height) such that
x*width, y*height and their quotients by xMax and yMax are representable as
32-bit `int`, the reports X=x, Y=y, Pressure=p emit no command, and the sync
barrier that follows, in mode `FULL`, emits exactly one warp to
(x*width/xMax, y*height/yMax) followed by exactly one `button 1 pressed` and no
other command. -/
theorem end_to_end_full_dispatch
    (x y p width height : Int) (xi yi pi : input_absinfo) (dbg c r m win : Int)
    (t1 t2 t3 : Option XWindowAttributes)
    (hx : x ≠ 0) (hm : m ≤ p) (hc : c ≤ p)
    (hxm : xi.maximum ≠ 0) (hym : yi.maximum ≠ 0)
    (hfx : fits_int x width xi.maximum) (hfy : fits_int y height yi.maximum) :
    (event_loop xi yi pi ⟨dbg, FULL, c, r, m, win⟩ AxisState.initial
      [read_ok (abs_report ABS_X x) t1, read_ok (abs_report ABS_Y y) t2,
        read_ok (abs_report ABS_PRESSURE p) t3]).calls = [] ∧
    (event_loop xi yi pi ⟨dbg, FULL, c, r, m, win⟩ AxisState.initial
      [read_ok (abs_report ABS_X x) t1, read_ok (abs_report ABS_Y y) t2,
        read_ok (abs_report ABS_PRESSURE p) t3,
        read_ok sync_report (some ⟨width, height⟩)]).calls
      = [XCall.XGetWindowAttributes,
          XCall.XWarpPointer (Int.tdiv (x * width) xi.maximum)
            (Int.tdiv (y * height) yi.maximum),
          XCall.XTestFakeButtonEvent 1 true, XCall.XFlush] ∧
    commands (event_loop xi yi pi ⟨dbg, FULL, c, r, m, win⟩ AxisState.initial
      [read_ok (abs_report ABS_X x) t1, read_ok (abs_report ABS_Y y) t2,
        read_ok (abs_report ABS_PRESSURE p) t3,
        read_ok sync_report (some ⟨width, height⟩)]).calls
      = [XCall.XWarpPointer (Int.tdiv (x * width) xi.maximum)
            (Int.tdiv (y * height) yi.maximum),
          XCall.XTestFakeButtonEvent 1 true] ∧
    (event_loop xi yi pi ⟨dbg, FULL, c, r, m, win⟩ AxisState.initial
      [read_ok (abs_report ABS_X x) t1, read_ok (abs_report ABS_Y y) t2,
        read_ok (abs_report ABS_PRESSURE p) t3,
        read_ok sync_report (some ⟨width, height⟩)]).state = ⟨x, y, p⟩ ∧
    (event_loop xi yi pi ⟨dbg, FULL, c, r, m, win⟩ AxisState.initial
      [read_ok (abs_report ABS_X x) t1, read_ok (abs_report ABS_Y y) t2,
        read_ok (abs_report ABS_PRESSURE p) t3,
        read_ok sync_report (some ⟨width, height⟩)]).stderr = [] := by
  have e1 : handle_event t1 (abs_report ABS_X x) xi yi pi c r m FULL AxisState.initial
      = .returned ⟨x, 0, 0⟩ [] := by
    rw [handle_event_abs _ _ _ _ _ _ _ _ _ _ rfl]
    simp [store_axis, abs_report, hx, AxisState.initial]
  have e2 : handle_event t2 (abs_report ABS_Y y) xi yi pi c r m FULL ⟨x, 0, 0⟩
      = .returned ⟨x, y, 0⟩ [] := by
    rw [handle_event_abs _ _ _ _ _ _ _ _ _ _ rfl]
    simp [store_axis, abs_report, ABS_X, ABS_Y]
  have e3 : handle_event t3 (abs_report ABS_PRESSURE p) xi yi pi c r m FULL ⟨x, y, 0⟩
      = .returned ⟨x, y, p⟩ [] := by
    rw [handle_event_abs _ _ _ _ _ _ _ _ _ _ rfl]
    simp [store_axis, abs_report, ABS_X, ABS_Y, ABS_PRESSURE]
  have hpos : scaled_position FULL ⟨x, y, p⟩ ⟨width, height⟩ xi yi
      = .position (Int.tdiv (x * width) xi.maximum) (Int.tdiv (y * height) yi.maximum) := by
    simp [scaled_position, Scaled.of_quotients, int_div_int_mul_of_fits hfx hxm,
      int_div_int_mul_of_fits hfy hym]
  have hbut : button_calls ⟨x, y, p⟩ c r = [XCall.XTestFakeButtonEvent 1 true] := by
    have h : p ≥ c := hc
    simp [button_calls, h]
  have e4 := handle_event_sync_move ⟨width, height⟩ sync_report xi yi pi c r m FULL ⟨x, y, p⟩
    _ _ rfl hm hpos
  rw [store_axis_sync_report, hbut] at e4
  rw [event_loop_cons_returned xi yi pi ⟨dbg, FULL, c, r, m, win⟩ AxisState.initial ⟨x, 0, 0⟩
      (read_ok (abs_report ABS_X x) t1) _ [] rfl e1,
    event_loop_cons_returned xi yi pi ⟨dbg, FULL, c, r, m, win⟩ ⟨x, 0, 0⟩ ⟨x, y, 0⟩
      (read_ok (abs_report ABS_Y y) t2) _ [] rfl e2,
    event_loop_cons_returned xi yi pi ⟨dbg, FULL, c, r, m, win⟩ ⟨x, y, 0⟩ ⟨x, y, p⟩
      (read_ok (abs_report ABS_PRESSURE p) t3) _ [] rfl e3]
  rw [event_loop_cons_returned xi yi pi ⟨dbg, FULL, c, r, m, win⟩ AxisState.initial ⟨x, 0, 0⟩
      (read_ok (abs_report ABS_X x) t1) _ [] rfl e1,
    event_loop_cons_returned xi yi pi ⟨dbg, FULL, c, r, m, win⟩ ⟨x, 0, 0⟩ ⟨x, y, 0⟩
      (read_ok (abs_report ABS_Y y) t2) _ [] rfl e2,
    event_loop_cons_returned xi yi pi ⟨dbg, FULL, c, r, m, win⟩ ⟨x, y, 0⟩ ⟨x, y, p⟩
      (read_ok (abs_report ABS_PRESSURE p) t3) _ [] rfl e3,
    event_loop_cons_returned xi yi pi ⟨dbg, FULL, c, r, m, win⟩ ⟨x, y, p⟩ ⟨x, y, p⟩
      (read_ok sync_report (some ⟨width, height⟩)) _ _ rfl e4]
  simp [event_loop, commands]

/-- C5, witness: X=200, Y=300, Pressure=60 with thresholds 50, 20 and 0,
xMax = yMax = 1000 and a window of 400 by 400 give one warp to (80, 120) and
one `button 1 pressed`. -/
theorem end_to_end_full_dispatch_witness :
    (200 : Int) ≠ 0 ∧ (0 : Int) ≤ 60 ∧ (50 : Int) ≤ 60 ∧
    (input_absinfo.mk 0 1000).maximum ≠ 0 ∧
    fits_int 200 400 (input_absinfo.mk 0 1000).maximum ∧
    fits_int 300 400 (input_absinfo.mk 0 1000).maximum ∧
    commands (event_loop ⟨0, 1000⟩ ⟨0, 1000⟩ ⟨0, 255⟩ ⟨0, FULL, 50, 20, 0, 0⟩ AxisState.initial
      [read_ok (abs_report ABS_X 200) none, read_ok (abs_report ABS_Y 300) none,
        read_ok (abs_report ABS_PRESSURE 60) none,
        read_ok sync_report (some ⟨400, 400⟩)]).calls
      = [XCall.XWarpPointer 80 120, XCall.XTestFakeButtonEvent 1 true] :=
  ⟨by decide, by decide, by decide, by decide, by decide, by decide,
    (end_to_end_full_dispatch 200 300 60 400 400 ⟨0, 1000⟩ ⟨0, 1000⟩ ⟨0, 255⟩ 0 50 20 0 0
      none none none (by decide) (by decide) (by decide) (by decide) (by decide) (by decide)
      (by decide)).2.2.1⟩

/-! ## Start-up validation (C7, C8) -/

theorem handle_event_exit_message (target : Option XWindowAttributes) (ev : input_event)
    (xi yi pi : input_absinfo) (c r m mode : Int) (st : AxisState)
    (status : Int) (msg : Message) (cs : List XCall)
    (h : handle_event target ev xi yi pi c r m mode st = .exited status msg cs) :
    msg = .window_attributes_failed ∨ msg = .invalid_scaling_mode mode := by
  unfold handle_event at h
  split_ifs at h
  · cases target with
    | none =>
      simp only [Outcome.exited.injEq] at h
      exact Or.inl h.2.1.symm
    | some a =>
      simp only at h
      split at h
      · simp only [Outcome.exited.injEq] at h
        exact Or.inr h.2.1.symm
      · cases h
      · cases h

theorem event_loop_stderr (xi yi pi : input_absinfo) (s : Settings) (reads : List Read)
    (st : AxisState) :
    ∀ msg ∈ (event_loop xi yi pi s st reads).stderr,
      msg = .window_attributes_failed ∨ msg = .invalid_scaling_mode s.scaling_mode := by
  induction reads generalizing st with
  | nil => intro msg h; cases h
  | cons rd rest ih =>
    intro msg hmem
    unfold event_loop at hmem
    split_ifs at hmem with h1 h2
    · split at hmem
      · rename_i status m2 cs heq
        simp only [List.mem_singleton] at hmem
        subst hmem
        exact handle_event_exit_message _ _ _ _ _ _ _ _ _ _ _ _ _ heq
      · cases hmem
      · exact ih _ msg hmem
    · exact ih _ msg hmem
    · cases hmem

theorem event_loop_reads_first (xi yi pi : input_absinfo) (s : Settings) (reads : List Read)
    (st : AxisState) (h : reads ≠ []) :
    0 < (event_loop xi yi pi s st reads).events_read := by
  cases reads with
  | nil => exact absurd rfl h
  | cons rd rest =>
    unfold event_loop
    split_ifs
    · split <;> simp
    · simp
    · simp

theorem parse_options_valid (opts : List Opt) (s0 s : Settings)
    (h0 : valid_mode s0.scaling_mode) (h : parse_options s0 opts = .ok s) :
    valid_mode s.scaling_mode := by
  induction opts generalizing s0 with
  | nil =>
    simp only [parse_options, Except.ok.injEq] at h
    exact h ▸ h0
  | cons o rest ih =>
    cases o <;> simp only [parse_options] at h
    case debug => refine ih _ ?_ h; exact h0
    case scale_full => refine ih _ ?_ h; exact Or.inl rfl
    case scale_aspect_fill_x => refine ih _ ?_ h; exact Or.inr (Or.inl rfl)
    case scale_aspect_fill_y => refine ih _ ?_ h; exact Or.inr (Or.inr (Or.inl rfl))
    case scale_none => refine ih _ ?_ h; exact Or.inr (Or.inr (Or.inr rfl))
    case c n => refine ih _ ?_ h; exact h0
    case r n => refine ih _ ?_ h; exact h0
    case m n => refine ih _ ?_ h; exact h0
    case w n => refine ih _ ?_ h; exact h0
    case h => cases h
    case unrecognised => cases h

/-- C7: the threshold validation of `main` ends the program with status 1 and
the out-of-range error, before any event is read, exactly when the click or the
release threshold lies outside [minimum, maximum] of the pressure axis, whatever
the movement threshold; when both lie inside, the read loop runs (also when
click < release) and the warning is issued exactly when click < release. `main`
reaches this validation whenever the options parse and the device opens with
the three axes. -/
theorem threshold_validation (s : Settings) (x y pressure : input_absinfo)
    (reads : List Read) :
    ((¬ within_extent pressure s.click_threshold ∨
        ¬ within_extent pressure s.release_threshold) →
      main_thresholds s x y pressure reads =
        { stderr := [.thresholds_out_of_range], status := 1, events_read := 0,
          state := AxisState.initial, calls := [] }) ∧
    (Message.thresholds_out_of_range ∈ (main_thresholds s x y pressure reads).stderr ↔
      (¬ within_extent pressure s.click_threshold ∨
        ¬ within_extent pressure s.release_threshold)) ∧
    (within_extent pressure s.click_threshold ∧ within_extent pressure s.release_threshold →
      main_thresholds s x y pressure reads =
        { event_loop x y pressure s AxisState.initial reads with
          stderr := (if s.click_threshold < s.release_threshold
              then [Message.click_below_release] else [])
            ++ (event_loop x y pressure s AxisState.initial reads).stderr } ∧
      (Message.click_below_release ∈ (main_thresholds s x y pressure reads).stderr ↔
        s.click_threshold < s.release_threshold) ∧
      (reads ≠ [] → 0 < (main_thresholds s x y pressure reads).events_read)) ∧
    (∀ m2 : Int,
      (Message.thresholds_out_of_range ∈
          (main_thresholds { s with movement_threshold := m2 } x y pressure reads).stderr ↔
        Message.thresholds_out_of_range ∈ (main_thresholds s x y pressure reads).stderr)) ∧
    (∀ (opts : List Opt) (dev : Device),
      parse_options Settings.default opts = .ok s → 0 ≤ dev.fd → 0 ≤ dev.init_rc →
      dev.has_abs_x = true → dev.has_abs_y = true → dev.has_abs_pressure = true →
      main opts dev reads = main_thresholds s dev.x dev.y dev.pressure reads) := by
  have hout : ∀ s2 : Settings,
      (¬ within_extent pressure s2.click_threshold ∨
        ¬ within_extent pressure s2.release_threshold) →
      main_thresholds s2 x y pressure reads =
        { stderr := [.thresholds_out_of_range], status := 1, events_read := 0,
          state := AxisState.initial, calls := [] } := by
    intro s2 h
    have h2 : s2.click_threshold < pressure.minimum ∨ s2.click_threshold > pressure.maximum ∨
        s2.release_threshold < pressure.minimum ∨
        s2.release_threshold > pressure.maximum := by
      unfold within_extent at h
      omega
    simp [main_thresholds, h2]
  have hin : ∀ s2 : Settings,
      within_extent pressure s2.click_threshold ∧
        within_extent pressure s2.release_threshold →
      main_thresholds s2 x y pressure reads =
        { event_loop x y pressure s2 AxisState.initial reads with
          stderr := (if s2.click_threshold < s2.release_threshold
              then [Message.click_below_release] else [])
            ++ (event_loop x y pressure s2 AxisState.initial reads).stderr } := by
    intro s2 h
    have h2 : ¬ (s2.click_threshold < pressure.minimum ∨
        s2.click_threshold > pressure.maximum ∨
        s2.release_threshold < pressure.minimum ∨
        s2.release_threshold > pressure.maximum) := by
      unfold within_extent at h
      omega
    simp [main_thresholds, h2]
  have hloop : ∀ s2 : Settings,
      Message.thresholds_out_of_range ∉ (event_loop x y pressure s2 AxisState.initial reads).stderr ∧
      Message.click_below_release ∉ (event_loop x y pressure s2 AxisState.initial reads).stderr := by
    intro s2
    constructor <;>
    · intro hmem
      rcases event_loop_stderr x y pressure s2 reads AxisState.initial _ hmem with h | h <;>
        cases h
  have hiff : ∀ s2 : Settings,
      (Message.thresholds_out_of_range ∈ (main_thresholds s2 x y pressure reads).stderr ↔
        (¬ within_extent pressure s2.click_threshold ∨
          ¬ within_extent pressure s2.release_threshold)) := by
    intro s2
    constructor
    · intro hmem
      by_contra hcon
      have hboth : within_extent pressure s2.click_threshold ∧
          within_extent pressure s2.release_threshold := by
        constructor <;> by_contra h <;> exact hcon (by tauto)
      rw [hin s2 hboth] at hmem
      simp only [List.mem_append] at hmem
      rcases hmem with h | h
      · split_ifs at h <;> simp at h
      · exact (hloop s2).1 h
    · intro h
      rw [hout s2 h]
      simp
  refine ⟨hout s, hiff s, ?_, ?_, ?_⟩
  · intro hboth
    refine ⟨hin s hboth, ?_, ?_⟩
    · rw [hin s hboth]
      simp only [List.mem_append]
      constructor
      · rintro (h | h)
        · by_contra hlt
          simp [hlt] at h
        · exact absurd h (hloop s).2
      · intro hlt
        left
        simp [hlt]
    · intro hne
      rw [hin s hboth]
      exact event_loop_reads_first x y pressure s reads AxisState.initial hne
  · intro m2
    rw [hiff, hiff s]
  · intro opts dev hparse hfd hinit hx hy hp
    have h1 : ¬ dev.fd < 0 := by omega
    have h2 : ¬ dev.init_rc < 0 := by omega
    simp [main, hparse, h1, h2, hx, hy, hp]

/-- C8 as stated fails: with the unknown scaling mode 7 start-up passes, both
events are handled (the pressure report is stored, the barrier emits a button
command and flushes) and no error is reported. -/
theorem unknown_mode_events_are_handled :
    ¬ valid_mode 7 ∧
    main_thresholds ⟨0, 7, 50, 20, 10, 0⟩ ⟨0, 1000⟩ ⟨0, 1000⟩ ⟨0, 255⟩
        [read_ok (abs_report ABS_PRESSURE 5) none, read_ok sync_report (some ⟨800, 600⟩)]
      = { stderr := [], status := 0, events_read := 2, state := ⟨0, 0, 5⟩,
          calls := [XCall.XTestFakeButtonEvent 1 false, XCall.XFlush] } := by
  decide

/-- C8, amended: a scaling mode other than the four is not rejected at
start-up; `handle_event` exits with the invalid-mode error only where it
reaches the mode switch, that is on a sync barrier whose stored pressure is at
least `movement_threshold` and whose window-size query succeeds, and then
before any warp or button command of that barrier. Every other event is handled
as in a valid mode: axis reports are stored and barriers below the movement
threshold emit their button commands. The command-line options can only select
one of the four modes. -/
theorem unknown_mode_exits_at_mode_switch
    (target : Option XWindowAttributes) (ev : input_event) (xi yi pi : input_absinfo)
    (c r m mode : Int) (st : AxisState) (hbad : ¬ valid_mode mode) :
    (handle_event target ev xi yi pi c r m mode st
        = .exited 1 (.invalid_scaling_mode mode) [XCall.XGetWindowAttributes] ↔
      ev.type = EV_SYN ∧ m ≤ st.abs_pressure ∧ target.isSome) ∧
    (¬ (ev.type = EV_SYN ∧ m ≤ st.abs_pressure ∧ target.isSome) →
      handle_event target ev xi yi pi c r m mode st
        = handle_event target ev xi yi pi c r m FULL st) ∧
    (ev.type = EV_ABS →
      handle_event target ev xi yi pi c r m mode st = .returned (store_axis ev st) []) ∧
    (ev.type = EV_SYN → st.abs_pressure < m →
      handle_event target ev xi yi pi c r m mode st
        = .returned (store_axis ev st) (button_calls st c r ++ [XCall.XFlush])) ∧
    (∀ (opts : List Opt) (s : Settings),
      parse_options Settings.default opts = .ok s → valid_mode s.scaling_mode) := by
  have hexit : ev.type = EV_SYN ∧ m ≤ st.abs_pressure ∧ target.isSome →
      handle_event target ev xi yi pi c r m mode st
        = .exited 1 (.invalid_scaling_mode mode) [XCall.XGetWindowAttributes] := by
    rintro ⟨hsyn, hp, hsome⟩
    obtain ⟨a, rfl⟩ := Option.isSome_iff_exists.mp hsome
    have h : st.abs_pressure ≥ m := hp
    simp [handle_event, hsyn, h, scaled_position_of_invalid mode st a xi yi hbad]
  have hother : ¬ (ev.type = EV_SYN ∧ m ≤ st.abs_pressure ∧ target.isSome) →
      handle_event target ev xi yi pi c r m mode st
        = handle_event target ev xi yi pi c r m FULL st := by
    intro hn
    by_cases hsyn : ev.type = EV_SYN
    · by_cases hp : st.abs_pressure < m
      · rw [handle_event_sync_still target ev xi yi pi c r m mode st hsyn hp,
          handle_event_sync_still target ev xi yi pi c r m FULL st hsyn hp]
      · cases target with
        | none =>
          rw [handle_event_sync_no_window ev xi yi pi c r m mode st hsyn (by omega),
            handle_event_sync_no_window ev xi yi pi c r m FULL st hsyn (by omega)]
        | some a => exact absurd ⟨hsyn, by omega, rfl⟩ hn
    · simp [handle_event, hsyn]
  refine ⟨⟨?_, hexit⟩, hother, ?_, ?_, ?_⟩
  · intro h
    by_contra hn
    rw [hother hn] at h
    rcases handle_event_exit_message _ _ _ _ _ _ _ _ _ _ _ _ _ h with h2 | h2
    · cases h2
    · simp only [Message.invalid_scaling_mode.injEq] at h2
      exact hbad (h2 ▸ Or.inl rfl)
  · intro habs
    exact handle_event_abs target ev xi yi pi c r m mode st habs
  · intro hsyn hp
    exact handle_event_sync_still target ev xi yi pi c r m mode st hsyn hp
  · intro opts s h
    exact parse_options_valid opts Settings.default s (by decide) h

/-- C8, witness: mode 7 with stored pressure 60 and movement threshold 0 exits
at the mode switch when the window answers, right after the query. -/
theorem unknown_mode_exits_at_mode_switch_witness :
    ¬ valid_mode 7 ∧
    handle_event (some ⟨800, 600⟩) sync_report ⟨0, 1000⟩ ⟨0, 1000⟩ ⟨0, 255⟩ 50 20 0 7
        ⟨200, 300, 60⟩
      = .exited 1 (.invalid_scaling_mode 7) [XCall.XGetWindowAttributes] :=
  ⟨by decide,
    (unknown_mode_exits_at_mode_switch (some ⟨800, 600⟩) sync_report ⟨0, 1000⟩ ⟨0, 1000⟩
      ⟨0, 255⟩ 50 20 0 7 ⟨200, 300, 60⟩ (by decide)).1.2 (by decide)⟩

end TouchpadTablet
